import Mathlib

/-!
Verification of the anomaly-detection and pattern-correlation engine of the
Aadhaar-Linked Regional Intelligence System repository.

The Python sources embedded here (shallowly, over lists and rationals) are:
  backend/ml_models.py        (multisignal_confirmation, detect_zscore_clusters)
  backend/anomaly_detection.py (AnomalyDetectionEngine: the detector bank,
                                apply_pattern_correlation, generate_anomaly_report)
  backend/correlation_engine.py (PatternCorrelationEngine)
  backend/utils.py             (convert_to_native_types: NaN -> None, which the
                                embedding reflects by using Option fields)

Modelling conventions:
  * pandas DataFrames become lists of records; a missing key / NaN cell is `none`.
  * Machine floats become `ℚ`.  Where the source compares `|v - mean| / std > t`
    with `std = sqrt var`, the embedded detector uses the equivalent rational
    test `(v - mean)^2 > t^2 * var` (both sides are nonnegative, `t ≥ 0`), and
    the bridge to the square-root formulation is proved as a theorem.
  * Python `round(x, k)` (round-half-even) becomes `rheQ`.
  * Dates are days since 1970-01-01 (`Int`); the CSV date strings of the data
    files are ISO `YYYY-MM-DD`, rendered back by `dateToStr` where the source
    formats a date into a string.  `weekday` matches `datetime.weekday()`
    (Monday = 0, Sunday = 6).
  * `hashlib.sha256` is embedded as a full SHA-256 over UTF-8 bytes.
  * Calls into scikit-learn / ruptures (IsolationForest, DBSCAN, PELT) are
    external-library calls; they enter the embedding as function parameters.
    The repository's own logic around them is embedded concretely.
-/

/-- Truncation to 32 bits, `n mod 2^32`. -/
def w32 (n : Nat) : Nat := n % 4294967296

/-- Right rotation of a 32-bit word. -/
def rotr (n x : Nat) : Nat := w32 ((x >>> n) ||| (x <<< (32 - n)))

/-- SHA-256 Ch function. -/
def shaCh (x y z : Nat) : Nat := (x &&& y) ^^^ ((x ^^^ 4294967295) &&& z)

/-- SHA-256 Maj function. -/
def shaMaj (x y z : Nat) : Nat := (x &&& y) ^^^ (x &&& z) ^^^ (y &&& z)

/-- SHA-256 Σ₀. -/
def shaS0 (x : Nat) : Nat := rotr 2 x ^^^ rotr 13 x ^^^ rotr 22 x

/-- SHA-256 Σ₁. -/
def shaS1 (x : Nat) : Nat := rotr 6 x ^^^ rotr 11 x ^^^ rotr 25 x

/-- SHA-256 σ₀. -/
def shas0 (x : Nat) : Nat := rotr 7 x ^^^ rotr 18 x ^^^ (x >>> 3)

/-- SHA-256 σ₁. -/
def shas1 (x : Nat) : Nat := rotr 17 x ^^^ rotr 19 x ^^^ (x >>> 10)

/-- The 64 SHA-256 round constants. -/
def shaK : List Nat :=
  [1116352408, 1899447441, 3049323471, 3921009573, 961987163, 1508970993,
   2453635748, 2870763221, 3624381080, 310598401, 607225278, 1426881987,
   1925078388, 2162078206, 2614888103, 3248222580, 3835390401, 4022224774,
   264347078, 604807628, 770255983, 1249150122, 1555081692, 1996064986,
   2554220882, 2821834349, 2952996808, 3210313671, 3336571891, 3584528711,
   113926993, 338241895, 666307205, 773529912, 1294757372, 1396182291,
   1695183700, 1986661051, 2177026350, 2456956037, 2730485921, 2820302411,
   3259730800, 3345764771, 3516065817, 3600352804, 4094571909, 275423344,
   430227734, 506948616, 659060556, 883997877, 958139571, 1322822218,
   1537002063, 1747873779, 1955562222, 2024104815, 2227730452, 2361852424,
   2428436474, 2756734187, 3204031479, 3329325298]

/-- SHA-256 working state: eight 32-bit words. -/
structure ShaState where
  a : Nat
  b : Nat
  c : Nat
  d : Nat
  e : Nat
  f : Nat
  g : Nat
  h : Nat
deriving DecidableEq

/-- SHA-256 initial hash value. -/
def shaInit : ShaState :=
  ⟨1779033703, 3144134277, 1013904242, 2773480762, 1359893119, 2600822924, 528734635, 1541459225⟩

/-- One SHA-256 round for round constant `k` and schedule word `w`. -/
def shaRound (st : ShaState) (kw : Nat × Nat) : ShaState :=
  let t1 := w32 (st.h + shaS1 st.e + shaCh st.e st.f st.g + kw.1 + kw.2)
  let t2 := w32 (shaS0 st.a + shaMaj st.a st.b st.c)
  ⟨w32 (t1 + t2), st.a, st.b, st.c, w32 (st.d + t1), st.e, st.f, st.g⟩

/-- Big-endian 32-bit words from a byte list (groups of four). -/
def bytesToWords : List Nat → List Nat
  | b0 :: b1 :: b2 :: b3 :: rest => ((b0 <<< 24) + (b1 <<< 16) + (b2 <<< 8) + b3) :: bytesToWords rest
  | _ => []

/-- Extend 16 message words to the 64-entry schedule. -/
def shaSchedule (ws : List Nat) : List Nat :=
  let arr := (List.range 48).foldl
    (fun (acc : Array Nat) i =>
      let n := i + 16
      acc.push (w32 (shas1 (acc.getD (n - 2) 0) + acc.getD (n - 7) 0 +
                     shas0 (acc.getD (n - 15) 0) + acc.getD (n - 16) 0)))
    ws.toArray
  arr.toList

/-- Compress one 64-byte block into the running hash. -/
def shaBlock (st : ShaState) (block : List Nat) : ShaState :=
  let ws := shaSchedule (bytesToWords block)
  let r := (shaK.zip ws).foldl shaRound st
  ⟨w32 (st.a + r.a), w32 (st.b + r.b), w32 (st.c + r.c), w32 (st.d + r.d),
   w32 (st.e + r.e), w32 (st.f + r.f), w32 (st.g + r.g), w32 (st.h + r.h)⟩

/-- Split a byte list into 64-byte chunks (structural recursion on a fuel
bound so the definition evaluates inside the kernel). -/
def chunksAux : Nat → List Nat → List (List Nat)
  | 0, _ => []
  | _, [] => []
  | fuel + 1, x :: xs => (x :: xs).take 64 :: chunksAux fuel ((x :: xs).drop 64)

/-- Split a byte list into 64-byte chunks. -/
def chunks64 (l : List Nat) : List (List Nat) := chunksAux l.length l

/-- SHA-256 padding: append 0x80, zeros, and the 64-bit big-endian bit length. -/
def shaPad (msg : List Nat) : List Nat :=
  let bitLen := 8 * msg.length
  let padLen := (64 - (msg.length + 9) % 64) % 64
  msg ++ [0x80] ++ List.replicate padLen 0 ++
    [(bitLen >>> 56) &&& 255, (bitLen >>> 48) &&& 255, (bitLen >>> 40) &&& 255,
     (bitLen >>> 32) &&& 255, (bitLen >>> 24) &&& 255, (bitLen >>> 16) &&& 255,
     (bitLen >>> 8) &&& 255, bitLen &&& 255]

/-- Full SHA-256 over a byte list, returning the final state. -/
def sha256 (msg : List Nat) : ShaState :=
  (chunks64 (shaPad msg)).foldl shaBlock shaInit

/-- Big-endian bytes of a 32-bit word. -/
def wordBytes (w : Nat) : List Nat :=
  [(w >>> 24) &&& 255, (w >>> 16) &&& 255, (w >>> 8) &&& 255, w &&& 255]

/-- The 32 digest bytes of a final SHA-256 state. -/
def digestBytes (st : ShaState) : List Nat :=
  wordBytes st.a ++ wordBytes st.b ++ wordBytes st.c ++ wordBytes st.d ++
  wordBytes st.e ++ wordBytes st.f ++ wordBytes st.g ++ wordBytes st.h

/-- Lowercase hexadecimal digits. -/
def hexDigitChars : List Char := "0123456789abcdef".data

/-- Hex digit for a nibble (Python `hexdigest` uses lowercase). -/
def hexChar (n : Nat) : Char := hexDigitChars.getD n '0'

/-- Two lowercase hex characters of one byte. -/
def byteHex (b : Nat) : List Char := [hexChar (b / 16 % 16), hexChar (b % 16)]

/-- The characters of `hashlib.sha256(...).hexdigest()`. -/
def hexDigestChars (msg : List Nat) : List Char :=
  ((digestBytes (sha256 msg)).map byteHex).flatten

/-- UTF-8 encoding of one code point. -/
def utf8Bytes (c : Nat) : List Nat :=
  if c < 0x80 then [c]
  else if c < 0x800 then [0xC0 ||| (c >>> 6), 0x80 ||| (c &&& 0x3F)]
  else if c < 0x10000 then
    [0xE0 ||| (c >>> 12), 0x80 ||| ((c >>> 6) &&& 0x3F), 0x80 ||| (c &&& 0x3F)]
  else
    [0xF0 ||| (c >>> 18), 0x80 ||| ((c >>> 12) &&& 0x3F), 0x80 ||| ((c >>> 6) &&& 0x3F),
     0x80 ||| (c &&& 0x3F)]

/-- UTF-8 bytes of a string (Python `str.encode()`). -/
def strBytes (s : String) : List Nat :=
  (s.data.map (fun c => utf8Bytes c.toNat)).flatten

/-- Python `round(x, 0)` style round-half-even on a rational, as an integer. -/
def rheZ (q : ℚ) : ℤ :=
  let f : ℤ := Rat.floor q
  let r := q - (f : ℚ)
  if r < 1 / 2 then f
  else if 1 / 2 < r then f + 1
  else if f % 2 = 0 then f else f + 1

/-- Python `round(x, k)` (round-half-even at `k` decimal places). -/
def rheQ (k : Nat) (q : ℚ) : ℚ :=
  let p : ℚ := (10 : ℚ) ^ k
  ((rheZ (q * p) : ℤ) : ℚ) / p

/-- Python `int(x)`: truncation toward zero. -/
def pyInt (q : ℚ) : ℤ := Int.tdiv q.num (q.den : ℤ)

/-- Python `', '.join(...)`. -/
def joinComma : List String → String
  | [] => ""
  | [s] => s
  | s :: rest => s ++ ", " ++ joinComma rest

/-- Weekday (`datetime.weekday()`) of an epoch-day number: Monday = 0 .. Sunday = 6. -/
def weekday (d : ℤ) : ℤ := (d + 3) % 7

/-- Civil (year, month, day) from days since 1970-01-01. -/
def civilFromDays (d : ℤ) : ℤ × ℤ × ℤ :=
  let z := d + 719468
  let era := z / 146097
  let doe := z - era * 146097
  let q1 := doe / 1460
  let q2 := doe / 36524
  let q3 := doe / 146096
  let yoe := (doe - q1 + q2 - q3) / 365
  let y := yoe + era * 400
  let leaps := yoe / 4 - yoe / 100
  let doy := doe - (365 * yoe + leaps)
  let mp := (5 * doy + 2) / 153
  let dayv := doy - (153 * mp + 2) / 5 + 1
  let m := mp + (if mp < 10 then 3 else -9)
  (y + (if m ≤ 2 then 1 else 0), m, dayv)

/-- Zero-pad a nonnegative integer to at least `k` digits. -/
def padNum (k : Nat) (n : ℤ) : String :=
  let s := toString n.toNat
  String.mk (List.replicate (k - s.length) '0') ++ s

/-- ISO `YYYY-MM-DD` rendering of an epoch-day number (the string form in which
the data files carry dates and in which detectors emit them). -/
def dateToStr (d : ℤ) : String :=
  let c := civilFromDays d
  padNum 4 c.1 ++ "-" ++ padNum 2 c.2.1 ++ "-" ++ padNum 2 c.2.2

/-- Compact `strftime('%Y%m%d')` rendering of an epoch-day number. -/
def dateToYmd (d : ℤ) : String :=
  let c := civilFromDays d
  padNum 4 c.1 ++ padNum 2 c.2.1 ++ padNum 2 c.2.2

example : dateToStr 0 = "1970-01-01" := by decide
example : dateToStr 19724 = "2024-01-02" := by decide
example : weekday 3 = 6 := by decide
example : rheQ 2 (125 / 1000) = 12 / 100 := of_decide_eq_true (by with_unfolding_all rfl)
example : rheQ 2 (135 / 1000) = 14 / 100 := of_decide_eq_true (by with_unfolding_all rfl)
example : pyInt (-5 / 2) = -2 := of_decide_eq_true (by with_unfolding_all rfl)

/-! ## Data model

An anomaly record is a Python dict.  Each field below models one key; `none`
models both "key absent" and a NaN cell (which `convert_to_native_types` turns
into `None`).  Presentation-only keys of the source (explanation strings,
rounded z-score/deviation displays, expected-range strings, governance notes)
are not modelled: no downstream decision reads them. -/

/-- A dict value that is either numeric or a string. -/
inductive Val where
  | num (q : ℚ)
  | str (s : String)
deriving DecidableEq

/-- The anomaly record (`Anomaly` of the spec). -/
structure AnomalyRec where
  month : Option String := none
  date : Option ℤ := none
  region : Option String := none
  state : Option String := none
  center_id : Option String := none
  metric : Option String := none
  value : Option Val := none
  anomaly_type : Option String := none
  severity : Option String := none
  cluster_id : Option ℤ := none
  confidence : Option ℚ := none
  verification : Option String := none
  detected_by : List String := []
  detection_count : Option Nat := none
  sources : Option String := none
  confirmation_status : Option String := none
  date_dt : Option ℤ := none
  temporal_cluster_id : Option String := none
  concurrent_anomalies : Option Nat := none
  geo_hotspot_score : Option ℚ := none
  center_recurrence_count : Option Nat := none
  is_persistent_offender : Option Bool := none
  is_suppressed : Option Bool := none
  suppression_reason : Option String := none
  confidence_score : Option ℚ := none
  temporal_persistence : Option String := none
  compliance_signature : Option String := none
deriving DecidableEq

/-- Input row of `monthly_agg`. -/
structure MonthlyRow where
  month : String
  total_enrolment : ℚ
  total_demo_updates : ℚ
  total_bio_updates : ℚ
deriving DecidableEq

/-- Input row of `state_features` (source column `biometric_update_ratio` is
rendered here as `biometric_update_rt`). -/
structure StateRow where
  state : String
  biometric_update_rt : ℚ
  growth_volatility : ℚ
deriving DecidableEq

/-- Input row of `region_update_volumes.csv`. -/
structure RegionRow where
  date : ℤ
  region : String
  update_volume_count : ℚ
  successful_updates : ℚ
  rejected_updates : ℚ
deriving DecidableEq

/-- Input row of `center_performance.csv`. -/
structure CenterRow where
  center_id : String
  region : String
  avg_processing_time_min : ℚ
  biometric_error_rate_pct : ℚ
deriving DecidableEq

/-- Input row of `auth_retries.csv`. -/
structure RetryRow where
  date : ℤ
  region : String
  total_auth_attempts : ℚ
  high_retry_events_count : ℚ
deriving DecidableEq

/-- Input row of `regional_benchmarks.csv` (source columns
`biometric_update_ratio` and `cohort_median_bio_ratio` rendered with `_rt`). -/
structure BenchRow where
  state : String
  peer_lag_flag : Bool
  biometric_update_rt : ℚ
  cohort_median_bio_rt : ℚ
  bio_performance_gap_pct : ℚ
  peer_group_id : String
deriving DecidableEq

/-! ## Shared numeric helpers (pandas `mean`/`std`, first-occurrence dedup) -/

/-- Mean of a list of rationals (callers guard against the empty list). -/
def meanQ (l : List ℚ) : ℚ := l.sum / l.length

/-- pandas sample variance (`ddof=1`): `none` models the NaN `std` of a list
with fewer than two elements; every comparison against NaN is `False`. -/
def sampleVar (l : List ℚ) : Option ℚ :=
  if l.length ≤ 1 then none
  else some ((l.map (fun x => (x - meanQ l) ^ 2)).sum / ((l.length : ℚ) - 1))

/-- First-occurrence deduplication (pandas `.unique()`, Python dict keys). -/
def uniqueFirst {α : Type} [DecidableEq α] (l : List α) : List α :=
  l.foldl (fun acc s => if s ∈ acc then acc else acc ++ [s]) []

/-- Stable insertion into a sorted list. -/
def insertSorted {α : Type} (le : α → α → Bool) (x : α) : List α → List α
  | [] => [x]
  | y :: ys => if le x y then x :: y :: ys else y :: insertSorted le x ys

/-- Insertion sort (embeds `DataFrame.sort_values`; the sorted key column
(`month`) has unique values in this data, so any comparison sort agrees). -/
def sortBy {α : Type} (le : α → α → Bool) (l : List α) : List α :=
  l.foldr (insertSorted le) []

/-! ## Statistical detector bank (`AnomalyDetectionEngine`, anomaly_detection.py)

The source compares `|value - mean| / std > t` with `std = sqrt var`.  The
embedded detectors use the equivalent rational test `(value - mean)^2 > t^2 * var`
(for `var > 0`, `t ≥ 0`); the square-root bridge is proved below. -/

/-- The three metric columns of `detect_zscore_anomalies`. -/
def monthlyMetrics : List (String × (MonthlyRow → ℚ)) :=
  [("total_enrolment", (·.total_enrolment)),
   ("total_demo_updates", (·.total_demo_updates)),
   ("total_bio_updates", (·.total_bio_updates))]

/-- Z-score flag: `|value - mean| / std > threshold`, in squared form. -/
def zscoreFlag (threshold mean var x : ℚ) : Bool :=
  decide ((x - mean) ^ 2 > threshold ^ 2 * var)

/-- One metric of `detect_zscore_anomalies`.  `sampleVar = none` models the NaN
std of a short series (no flag fires); the `var = 0` branch is the source's
`if std == 0: continue` guard. -/
def detectZscoreMetric (threshold : ℚ) (rows : List MonthlyRow)
    (name : String) (proj : MonthlyRow → ℚ) : List AnomalyRec :=
  match sampleVar (rows.map proj) with
  | none => []
  | some v =>
    if v = 0 then []
    else
      let m := meanQ (rows.map proj)
      (rows.filter (fun r => zscoreFlag threshold m v (proj r))).map (fun r =>
        { month := some r.month
          metric := some name
          value := some (Val.num ((pyInt (proj r) : ℤ) : ℚ))
          anomaly_type := some (if proj r > m then "Spike" else "Drop")
          severity := some (if (proj r - m) ^ 2 > 9 * v then "Critical" else "High") })

/-- Source `detect_zscore_anomalies` over the three monthly metrics. -/
def detectZscoreAnomalies (threshold : ℚ) (rows : List MonthlyRow) : List AnomalyRec :=
  (monthlyMetrics.map (fun p => detectZscoreMetric threshold rows p.1 p.2)).flatten

/-- Rolling window of the last (up to) three values ending at index `i`
(`rolling(window=3, min_periods=1)`). -/
def rollingWindow (vals : List ℚ) (i : Nat) : List ℚ :=
  (vals.take (i + 1)).drop (i - 2)

/-- Rolling-deviation flag at one index: `|x - rolling_mean| / denom > threshold`
where `denom` is 1 when the window std is NaN (`fillna(1)`) or 0 (`replace(0, 1)`)
and `sqrt var` otherwise. -/
def rollingFlag (threshold : ℚ) (w : List ℚ) (x : ℚ) : Bool :=
  let rm := meanQ w
  match sampleVar w with
  | none => decide (|x - rm| > threshold)
  | some v => if v = 0 then decide (|x - rm| > threshold)
              else decide ((x - rm) ^ 2 > threshold ^ 2 * v)

/-- One metric of `detect_rolling_average_anomalies`; `zs` is `self.anomalies`
(the z-score list) used by the `existing` double-count guard. -/
def detectRollingMetric (zs : List AnomalyRec) (threshold : ℚ)
    (sorted : List MonthlyRow) (name : String) (proj : MonthlyRow → ℚ) : List AnomalyRec :=
  let vals := sorted.map proj
  (List.range sorted.length).filterMap (fun i =>
    match sorted.get? i with
    | none => none
    | some r =>
      let w := rollingWindow vals i
      let x := proj r
      if rollingFlag threshold w x &&
         !(zs.any (fun a => decide (a.month = some r.month) && decide (a.metric = some name))) then
        some { month := some r.month
               metric := some name
               value := some (Val.num ((pyInt x : ℤ) : ℚ))
               anomaly_type := some (if x > meanQ w then "Trend Break" else "Sudden Drop")
               severity := some "Medium" }
      else none)

/-- Source `detect_rolling_average_anomalies` (window 3, threshold 1.5): sorts by
month, flags per metric, appends all new anomalies. -/
def detectRollingAnomalies (zs : List AnomalyRec) (threshold : ℚ)
    (rows : List MonthlyRow) : List AnomalyRec :=
  let sorted := sortBy (fun a b => decide (a.month ≤ b.month)) rows
  (monthlyMetrics.map (fun p => detectRollingMetric zs threshold sorted p.1 p.2)).flatten

/-- Source `detect_ensemble_anomalies`: annotates each temporal anomaly with a fixed
confidence and a verification tag. -/
def ensembleVerify (l : List AnomalyRec) : List AnomalyRec :=
  l.map (fun a =>
    let c : ℚ := if a.severity = some "Critical" then 85 / 100 else 70 / 100
    { a with confidence := some c
             verification := some (if c > 8 / 10 then "Verified via Ensemble Model"
                                   else "Statistical Alert") })

/-- Source `detect_state_level_anomalies`: low biometric-update ratio
(`x < mean - 1.5*std`, severity High) and erratic growth
(`x > mean + 2*std`, severity Medium). -/
def detectStateLevel (rows : List StateRow) : List AnomalyRec :=
  let lowBio :=
    match sampleVar (rows.map (·.biometric_update_rt)) with
    | none => []
    | some v =>
      let m := meanQ (rows.map (·.biometric_update_rt))
      (rows.filter (fun r =>
          decide (m - r.biometric_update_rt > 0) &&
          decide ((m - r.biometric_update_rt) ^ 2 > (3 / 2) ^ 2 * v))).map (fun r =>
        { state := some r.state
          metric := some "biometric_update_ratio"
          value := some (Val.num (rheQ 3 r.biometric_update_rt))
          anomaly_type := some "Low Biometric Updates"
          severity := some "High" })
  let highVol :=
    match sampleVar (rows.map (·.growth_volatility)) with
    | none => []
    | some v =>
      let m := meanQ (rows.map (·.growth_volatility))
      (rows.filter (fun r =>
          decide (r.growth_volatility - m > 0) &&
          decide ((r.growth_volatility - m) ^ 2 > 4 * v))).map (fun r =>
        { state := some r.state
          metric := some "growth_volatility"
          value := some (Val.num (rheQ 3 r.growth_volatility))
          anomaly_type := some "Erratic Growth Pattern"
          severity := some "Medium" })
  lowBio ++ highVol

/-- Body of `detect_seasonal_anomalies`: per region, flag volumes outside
`mean ± 2.5*std` of that region's own history
(`|x - mean| > 2.5*std  ⟺  (x - mean)^2 > 6.25*var`). -/
def detectSeasonalRows (rows : List RegionRow) : List AnomalyRec :=
  ((uniqueFirst (rows.map (·.region))).map (fun reg =>
    let rr := rows.filter (fun x => decide (x.region = reg))
    match sampleVar (rr.map (·.update_volume_count)) with
    | none => []
    | some v =>
      let m := meanQ (rr.map (·.update_volume_count))
      (rr.filter (fun x => decide ((x.update_volume_count - m) ^ 2 > (5 / 2) ^ 2 * v))).map
        (fun x =>
          { date := some x.date
            region := some x.region
            metric := some "update_volume_count"
            value := some (Val.num ((pyInt x.update_volume_count : ℤ) : ℚ))
            anomaly_type := some "Seasonal Deviation"
            severity := some "Medium" }))).flatten

/-- Source `detect_seasonal_anomalies` with its `region_updates is None` guard. -/
def detectSeasonal (ru : Option (List RegionRow)) : List AnomalyRec :=
  match ru with
  | none => []
  | some rows => detectSeasonalRows rows

/-- Body of `detect_center_anomalies` (FPEWS): impossible efficiency
(`avg_processing_time_min < 8.0`, Critical) then high biometric error rate
(`biometric_error_rate_pct > 4.0`, High). -/
def detectCenterRows (rows : List CenterRow) : List AnomalyRec :=
  let speed := (rows.filter (fun r => decide (r.avg_processing_time_min < 8))).map (fun r =>
    { center_id := some r.center_id
      region := some r.region
      metric := some "avg_processing_time_min"
      value := some (Val.num (rheQ 1 r.avg_processing_time_min))
      anomaly_type := some "Impossible Efficiency (Bot Risk)"
      severity := some "Critical" })
  let err := (rows.filter (fun r => decide (r.biometric_error_rate_pct > 4))).map (fun r =>
    { center_id := some r.center_id
      region := some r.region
      metric := some "biometric_error_rate_pct"
      value := some (Val.num (rheQ 1 r.biometric_error_rate_pct))
      anomaly_type := some "High Bio-Failure Rate"
      severity := some "High" })
  speed ++ err

/-- Source `detect_center_anomalies` with its `center_ops is None` guard. -/
def detectCenter (co : Option (List CenterRow)) : List AnomalyRec :=
  match co with
  | none => []
  | some rows => detectCenterRows rows

/-- Retry-burst test: `high_retry_events_count / total_auth_attempts > 0.15`.
A zero denominator gives `inf` (> 0.15 iff the numerator is positive) in the
source; embedded by the explicit `total = 0` branch. -/
def retryBurst (r : RetryRow) : Bool :=
  if r.total_auth_attempts = 0 then decide (r.high_retry_events_count > 0)
  else decide (r.high_retry_events_count / r.total_auth_attempts > 15 / 100)

/-- Body of `detect_auth_retry_anomalies` (FPEWS).  (The displayed `value` of a
zero-denominator row is `inf` in the source; such rows do not occur in the
data and are given value 0 here.) -/
def detectRetryRows (rows : List RetryRow) : List AnomalyRec :=
  (rows.filter retryBurst).map (fun r =>
    { date := some r.date
      region := some r.region
      metric := some "high_retry_rate"
      value := some (Val.num (if r.total_auth_attempts = (0 : ℚ) then 0
        else rheQ 1 (r.high_retry_events_count / r.total_auth_attempts * 100)))
      anomaly_type := some "Auth Brute-Force Risk"
      severity := some "Critical" })

/-- Source `detect_auth_retry_anomalies` with its `auth_retries is None` guard. -/
def detectRetry (ar : Option (List RetryRow)) : List AnomalyRec :=
  match ar with
  | none => []
  | some rows => detectRetryRows rows

/-! ## ML detector bank (ml_models.py + engine wrappers)

IsolationForest, DBSCAN and PELT are scikit-learn / ruptures calls: they enter
as function parameters (`body`, `labels`).  The repository's own logic — the
`region_updates` absence guards, the anomalous-cluster criterion, and the
row-extraction masks — is embedded concretely. -/

/-- Guard of `detect_isolation_forest_anomalies`
(`region_updates is None or len == 0`). -/
def detectIsolationForest (body : List RegionRow → List AnomalyRec)
    (ru : Option (List RegionRow)) : List AnomalyRec :=
  match ru with
  | none => []
  | some rows => if rows = [] then [] else body rows

/-- Guard of `detect_changepoints`. -/
def detectChangepoints (body : List RegionRow → List AnomalyRec)
    (ru : Option (List RegionRow)) : List AnomalyRec :=
  match ru with
  | none => []
  | some rows => if rows = [] then [] else body rows

/-- Rows of the DBSCAN cluster labelled `c` (the z-score triples). -/
def clusterMembers (x : List (ℚ × ℚ × ℚ)) (labels : List ℤ) (c : ℤ) : List (ℚ × ℚ × ℚ) :=
  ((x.zip labels).filter (fun p => decide (p.2 = c))).map (·.1)

/-- Evaluation of `np.abs(cluster_zscores.mean(axis=0)).max()`: the per-metric means over the
cluster's points, absolute values, maximum over the three metrics. -/
def tripleMeanAbsMax (pts : List (ℚ × ℚ × ℚ)) : ℚ :=
  let n : ℚ := pts.length
  let m1 := (pts.map (·.1)).sum / n
  let m2 := (pts.map (·.2.1)).sum / n
  let m3 := (pts.map (·.2.2)).sum / n
  max |m1| (max |m2| |m3|)

/-- Source `MLAnomalyDetector.detect_zscore_clusters`, anomalous-cluster selection:
non-noise cluster ids whose `tripleMeanAbsMax` exceeds 3.0. -/
def anomalousClusters (x : List (ℚ × ℚ × ℚ)) (labels : List ℤ) : List ℤ :=
  (uniqueFirst (labels.filter (fun c => decide (c ≠ -1)))).filter
    (fun c => decide (tripleMeanAbsMax (clusterMembers x labels c) > 3))

/-- The engine-side extraction mask of `detect_zscore_clusters`:
`cluster.isin(anomalous_clusters) | (cluster == -1)`. -/
def zscoreClusterMask (x : List (ℚ × ℚ × ℚ)) (labels : List ℤ) (c : ℤ) : Bool :=
  decide (c ∈ anomalousClusters x labels) || decide (c = -1)

/-- Engine-side row extraction of `detect_zscore_clusters` given the z-score
matrix `x` and the DBSCAN labels. -/
def detectZscoreClusterRows (rows : List RegionRow) (x : List (ℚ × ℚ × ℚ))
    (labels : List ℤ) : List AnomalyRec :=
  ((rows.zip labels).filter (fun p => zscoreClusterMask x labels p.2)).map (fun p =>
    { date := some p.1.date
      region := some p.1.region
      metric := some "update_volume_count"
      value := some (Val.num ((pyInt p.1.update_volume_count : ℤ) : ℚ))
      cluster_id := some p.2
      anomaly_type := some "Z-score Cluster Outlier"
      severity := some "Medium" })

/-- Guard of the engine's `detect_zscore_clusters`; `zmat` is
`compute_zscore_matrix` (involving `sqrt`-based standardisation) and `dbscan`
the sklearn clustering, both parameters. -/
def detectZscoreClusters (zmat : List RegionRow → List (ℚ × ℚ × ℚ))
    (dbscan : List (ℚ × ℚ × ℚ) → List ℤ)
    (ru : Option (List RegionRow)) : List AnomalyRec :=
  match ru with
  | none => []
  | some rows =>
    if rows = [] then []
    else detectZscoreClusterRows rows (zmat rows) (dbscan (zmat rows))

/-! ## Multi-signal confirmation (`multisignal_confirmation`, ml_models.py) -/

/-- The identity signature `(date, region, metric-or-'general')`. -/
def sigOf (a : AnomalyRec) : Option ℤ × Option String × String :=
  (a.date, a.region, a.metric.getD "general")

/-- One entry of the confirmation dictionaries: the retained first anomaly
(`anomaly_details[sig]`), the distinct sources (`detection_counts[sig]`, a set,
kept here in first-insertion order), and the full `detected_by` list. -/
structure SigEntry where
  sig : Option ℤ × Option String × String
  details : AnomalyRec
  srcs : List String
  dby : List String
deriving DecidableEq

/-- Processing of one `(source, anomaly)` pair of the confirmation loop. -/
def msAdd (es : List SigEntry) (src : String) (a : AnomalyRec) : List SigEntry :=
  if es.any (fun e => decide (e.sig = sigOf a)) then
    es.map (fun e =>
      if e.sig = sigOf a then
        { e with srcs := if src ∈ e.srcs then e.srcs else e.srcs ++ [src]
                 dby := e.dby ++ [src] }
      else e)
  else
    es ++ [{ sig := sigOf a, details := { a with detected_by := [] }, srcs := [src],
             dby := [src] }]

/-- The confirmation loop over all `(source, anomaly)` pairs in order. -/
def msProcess (es : List SigEntry) : List (String × AnomalyRec) → List SigEntry
  | [] => es
  | p :: rest => msProcess (msAdd es p.1 p.2) rest

/-- Flattening of the `anomaly_sources` dict into iteration order. -/
def msPairs (sources : List (String × List AnomalyRec)) : List (String × AnomalyRec) :=
  (sources.map (fun p => p.2.map (fun a => (p.1, a)))).flatten

/-- Classification of one signature entry: ≥ 2 distinct sources gives
CONFIRMED with `severity = 'High'` (the source's unconditional assignment),
otherwise POTENTIAL with the stored severity untouched. -/
def msFinalize (e : SigEntry) : AnomalyRec :=
  let base := { e.details with detected_by := e.dby
                               detection_count := some e.srcs.length
                               sources := some (joinComma e.srcs) }
  if 2 ≤ e.srcs.length then
    { base with confirmation_status := some "CONFIRMED", severity := some "High" }
  else
    { base with confirmation_status := some "POTENTIAL" }

/-- Source `multisignal_confirmation`: (confirmed, potential). -/
def multisignalConfirmation (sources : List (String × List AnomalyRec)) :
    List AnomalyRec × List AnomalyRec :=
  let es := msProcess [] (msPairs sources)
  (((es.filter (fun e => decide (2 ≤ e.srcs.length))).map msFinalize),
   ((es.filter (fun e => decide (¬ 2 ≤ e.srcs.length))).map msFinalize))

/-! ## Pattern correlation & suppression (`PatternCorrelationEngine`)

The engine builds one DataFrame from the anomaly list; a column exists iff some
input record carries the key, and rows missing the key hold NaN there.  The
`has*Col` flags below carry exactly that column-existence information, which
matters twice: `date_dt` falls back to `datetime.now()` only when there is no
date column at all, and the f-string of the compliance signature renders a
missing value as `'nan'` (NaN cell of an existing column) versus `'None'`
(`.get` on an absent column). -/

/-- Column `date_dt`: parsed date, with NaT (`none`) for a NaN cell of an existing
date column and `datetime.now()` when no input record has a date. -/
def corrDateDt (hasDate : Bool) (now : ℤ) (a : AnomalyRec) : Option ℤ :=
  if hasDate then a.date else some now

/-- Source `_correlate_temporal`: the number of anomalies within ± 1 day (NaT rows
match nothing and count nothing). -/
def corrConcurrent (l : List AnomalyRec) (hasDate : Bool) (now : ℤ) (a : AnomalyRec) : Nat :=
  match corrDateDt hasDate now a with
  | none => 0
  | some d =>
    (l.filter (fun b =>
      match corrDateDt hasDate now b with
      | none => false
      | some d' => decide (d - 1 ≤ d') && decide (d' ≤ d + 1))).length

/-- Source `_correlate_temporal`: the `TEMP-YYYYMMDD` cluster id when more than three
anomalies share the window. -/
def corrTempId (l : List AnomalyRec) (hasDate : Bool) (now : ℤ) (a : AnomalyRec) : Option String :=
  match corrDateDt hasDate now a with
  | none => none
  | some d => if corrConcurrent l hasDate now a > 3 then some ("TEMP-" ++ dateToYmd d) else none

/-- Source `_correlate_geographical`: the region's share of all anomalies, rounded to
two decimals; 0.0 for a missing/empty region or when no region column exists. -/
def corrGeoScore (l : List AnomalyRec) (hasRegion : Bool) (a : AnomalyRec) : ℚ :=
  if hasRegion then
    match a.region with
    | none => 0
    | some r =>
      if r = "" then 0
      else rheQ 2 (((l.filter (fun b => decide (b.region = some r))).length : ℚ) / l.length)
  else 0

/-- Source `_correlate_centers_devices`: occurrences of this record's center id
(`value_counts` then `map`/`fillna(0)`). -/
def corrCenterCount (l : List AnomalyRec) (a : AnomalyRec) : Nat :=
  match a.center_id with
  | none => 0
  | some c => (l.filter (fun b => decide (b.center_id = some c))).length

/-- Source `_match_historical_patterns` rule 1: a 'Drop'-typed anomaly dated on a
Sunday is suppressed. -/
def corrSuppressed (hasDate : Bool) (now : ℤ) (a : AnomalyRec) : Bool :=
  (match a.anomaly_type with
   | none => false
   | some t => decide (("Drop".data : List Char) <:+: t.data)) &&
  (match corrDateDt hasDate now a with
   | none => false
   | some d => decide (weekday d = 6))

/-- The fixed suppression reason string of rule 1. -/
def weeklyDipReason : String := "Historical Pattern: Weekly Sunday Dip (Benign)"

/-- Severity contribution of the confidence score. -/
def confSevBonus (sev : Option String) : ℚ :=
  if sev = some "Critical" then 15 else if sev = some "High" then 10 else 0

/-- The confidence score of `get_enriched_anomalies`: base 75, severity bonus,
+5 for > 3 concurrent anomalies, +4 for a hotspot score > 0.3, +5 for a
persistent offender, capped at 99.9. -/
def confidenceScore (sev : Option String) (concurrent : Nat) (geo : ℚ) (persistent : Bool) : ℚ :=
  min (999 / 10)
    (75 + confSevBonus sev + (if concurrent > 3 then 5 else 0) +
     (if geo > 3 / 10 then 4 else 0) + (if persistent then 5 else 0))

/-- The `temporal_persistence` display tag. -/
def persistenceTag (persistent : Bool) (concurrent : Nat) : String :=
  if persistent then "High (Recurrent)"
  else if concurrent > 5 then "Medium (Burst)"
  else "Low"

/-- f-string rendering of one field of the audit string: a missing value is
`'nan'` when the column exists in the batch and `'None'` otherwise. -/
def renderField (hasCol : Bool) (v : Option String) : String :=
  match v with
  | some s => s
  | none => if hasCol then "nan" else "None"

/-- Source `_generate_compliance_signature`: SHA-256 of
`date-region-center_id-anomaly_type-ZERO_PII_GUARD`, truncated to 16 hex
characters and upper-cased. -/
def complianceSignature (hasDate hasRegion hasCenter hasType : Bool) (a : AnomalyRec) : String :=
  let audit := renderField hasDate (a.date.map dateToStr) ++ "-" ++
               renderField hasRegion a.region ++ "-" ++
               renderField hasCenter a.center_id ++ "-" ++
               renderField hasType a.anomaly_type ++ "-ZERO_PII_GUARD"
  String.mk (((hexDigestChars (strBytes audit)).take 16).map Char.toUpper)

/-- Enrichment of one record by the correlation pipeline (the row-wise content
of `_correlate_temporal`, `_correlate_geographical`, `_correlate_centers_devices`,
`_match_historical_patterns` and `get_enriched_anomalies`). -/
def corrEnrich (l : List AnomalyRec) (hasDate hasRegion hasCenter hasType : Bool)
    (now : ℤ) (a : AnomalyRec) : AnomalyRec :=
  let conc := corrConcurrent l hasDate now a
  let geo := corrGeoScore l hasRegion a
  let pers := hasCenter && decide (corrCenterCount l a > 2)
  let supp := corrSuppressed hasDate now a
  { a with
    date_dt := corrDateDt hasDate now a
    temporal_cluster_id := corrTempId l hasDate now a
    concurrent_anomalies := some conc
    geo_hotspot_score := some geo
    center_recurrence_count := if hasCenter then some (corrCenterCount l a) else none
    is_persistent_offender := some pers
    is_suppressed := some supp
    suppression_reason := if supp then some weeklyDipReason else none
    confidence_score := some (confidenceScore a.severity conc geo pers)
    temporal_persistence := some (persistenceTag pers conc)
    compliance_signature := some (complianceSignature hasDate hasRegion hasCenter hasType a) }

/-- Source `run_correlation_pipeline`: empty input returns `[]`; otherwise every
anomaly is re-emitted, enriched. -/
def runCorrelationPipeline (l : List AnomalyRec) (now : ℤ) : List AnomalyRec :=
  if l = [] then []
  else
    let hasDate := l.any (fun a => a.date.isSome)
    let hasRegion := l.any (fun a => a.region.isSome)
    let hasCenter := l.any (fun a => a.center_id.isSome)
    let hasType := l.any (fun a => a.anomaly_type.isSome)
    l.map (corrEnrich l hasDate hasRegion hasCenter hasType now)

/-! ## Re-categorisation, peer benchmark, and report assembly
(anomaly_detection.py, `apply_pattern_correlation` .. `generate_anomaly_report`) -/

/-- Python truthiness of `a.get('center_id')` after `convert_to_native_types`
(NaN has become `None`; an empty string is falsy). -/
def truthyStr (v : Option String) : Bool :=
  match v with
  | none => false
  | some s => decide (s ≠ "")

/-- Truthiness of `a.get('is_suppressed')` (absent key is falsy). -/
def truthySupp (a : AnomalyRec) : Bool := a.is_suppressed = some true

/-- The engine state mutated across the detection run (only the fields the
report reads). -/
structure EngineState where
  anomalies : List AnomalyRec := []
  state_anomalies : List AnomalyRec := []
  center_anomalies : List AnomalyRec := []
  retry_anomalies : List AnomalyRec := []
  seasonal_anomalies : List AnomalyRec := []
  peer_lag_anomalies : List AnomalyRec := []
  confirmed_anomalies : List AnomalyRec := []
  potential_anomalies : List AnomalyRec := []
  suppressed_anomalies : List AnomalyRec := []
deriving DecidableEq

/-- Source `apply_pattern_correlation`: collect confirmed + center + retry + seasonal
anomalies, run the correlation pipeline, and re-categorise the enriched
records, keeping suppressed ones aside.  An empty collection leaves the state
unchanged (the source returns early, leaving `suppressed_anomalies` unset,
read back as `[]` by the report's `getattr`). -/
def applyPatternCorrelation (now : ℤ) (s : EngineState) : EngineState :=
  let allAnoms := s.confirmed_anomalies ++ s.center_anomalies ++ s.retry_anomalies ++
                  s.seasonal_anomalies
  if allAnoms = [] then s
  else
    let enriched := runCorrelationPipeline allAnoms now
    { s with
      center_anomalies := enriched.filter (fun a => truthyStr a.center_id && !truthySupp a)
      retry_anomalies := enriched.filter (fun a =>
        decide (a.anomaly_type = some "Auth Brute-Force Risk") && !truthySupp a)
      seasonal_anomalies := enriched.filter (fun a =>
        decide (a.anomaly_type = some "Seasonal Deviation") && !truthySupp a)
      peer_lag_anomalies := enriched.filter (fun a =>
        decide (a.anomaly_type = some "Peer Performance Gap") && !truthySupp a)
      confirmed_anomalies := enriched.filter (fun a =>
        !truthyStr a.center_id &&
        decide (a.anomaly_type ≠ some "Auth Brute-Force Risk") &&
        decide (a.anomaly_type ≠ some "Seasonal Deviation") &&
        decide (a.anomaly_type ≠ some "Peer Performance Gap") &&
        !truthySupp a)
      suppressed_anomalies := enriched.filter truthySupp }

/-- Source `detect_peer_lag_anomalies` (STAGE 6): a missing benchmark file leaves the
state unchanged; otherwise rows flagged `peer_lag_flag` are appended (with no
compliance signature — they never pass through the correlation engine).  (The
percentage-formatted display value of the source is modelled as the raw
ratio.) -/
def detectPeerLag (benchmark : Option (List BenchRow)) (s : EngineState) : EngineState :=
  match benchmark with
  | none => s
  | some rows =>
    { s with peer_lag_anomalies := s.peer_lag_anomalies ++
        ((rows.filter (·.peer_lag_flag)).map (fun r =>
          { state := some r.state
            anomaly_type := some "Peer Performance Gap"
            metric := some "Biometric Saturation"
            value := some (Val.num r.biometric_update_rt)
            severity := some "High" })) }

/-- The report structure of `generate_anomaly_report` (the `generated_at`
timestamp is not modelled). -/
structure AnomalyReport where
  total_anomalies : Nat
  critical_count : Nat
  high_count : Nat
  medium_count : Nat
  fpews_alerts : Nat
  total_peer_gaps : Nat
  audit_signed_count : Nat
  temporal_anomalies : List AnomalyRec
  state_anomalies : List AnomalyRec
  center_anomalies : List AnomalyRec
  retry_anomalies : List AnomalyRec
  seasonal_anomalies : List AnomalyRec
  peer_lag_anomalies : List AnomalyRec
  ml_confirmed_anomalies : List AnomalyRec
  ml_potential_anomalies : List AnomalyRec
  suppressed_anomalies : List AnomalyRec
deriving DecidableEq

/-- Source `generate_anomaly_report`. -/
def generateAnomalyReport (s : EngineState) : AnomalyReport :=
  let allAnoms := s.anomalies ++ s.state_anomalies ++ s.center_anomalies ++
                  s.retry_anomalies ++ s.peer_lag_anomalies
  { total_anomalies := allAnoms.length
    critical_count := (allAnoms.filter (fun a => decide (a.severity = some "Critical"))).length
    high_count := (allAnoms.filter (fun a => decide (a.severity = some "High"))).length
    medium_count := (allAnoms.filter (fun a => decide (a.severity = some "Medium"))).length
    fpews_alerts := s.center_anomalies.length + s.retry_anomalies.length
    total_peer_gaps := s.peer_lag_anomalies.length
    audit_signed_count := allAnoms.length
    temporal_anomalies := s.anomalies
    state_anomalies := s.state_anomalies
    center_anomalies := s.center_anomalies
    retry_anomalies := s.retry_anomalies
    seasonal_anomalies := s.seasonal_anomalies
    peer_lag_anomalies := s.peer_lag_anomalies
    ml_confirmed_anomalies := s.confirmed_anomalies
    ml_potential_anomalies := s.potential_anomalies
    suppressed_anomalies := s.suppressed_anomalies }

/-- The category lists of the report, in its order. -/
def reportLists (r : AnomalyReport) : List (List AnomalyRec) :=
  [r.temporal_anomalies, r.state_anomalies, r.center_anomalies, r.retry_anomalies,
   r.seasonal_anomalies, r.peer_lag_anomalies, r.ml_confirmed_anomalies,
   r.ml_potential_anomalies, r.suppressed_anomalies]

/-- Source `run_anomaly_detection`: the full pipeline in source order.  `ifBody`,
`zmat`, `dbscan` and `cpBody` stand for the scikit-learn / ruptures model
calls; everything else is the repository's own logic. -/
def runAnomalyDetection
    (ifBody : List RegionRow → List AnomalyRec)
    (zmat : List RegionRow → List (ℚ × ℚ × ℚ))
    (dbscan : List (ℚ × ℚ × ℚ) → List ℤ)
    (cpBody : List RegionRow → List AnomalyRec)
    (monthly : List MonthlyRow) (stateF : List StateRow)
    (centerOps : Option (List CenterRow)) (authRetries : Option (List RetryRow))
    (regionUpdates : Option (List RegionRow)) (benchmark : Option (List BenchRow))
    (now : ℤ) : AnomalyReport :=
  let zs := detectZscoreAnomalies (5 / 2) monthly
  let temporal := ensembleVerify (zs ++ detectRollingAnomalies zs (3 / 2) monthly)
  let conf := multisignalConfirmation
    [("statistical_seasonal", detectSeasonal regionUpdates),
     ("isolation_forest", detectIsolationForest ifBody regionUpdates),
     ("zscore_cluster", detectZscoreClusters zmat dbscan regionUpdates),
     ("changepoint", detectChangepoints cpBody regionUpdates)]
  let s : EngineState :=
    { anomalies := temporal
      state_anomalies := detectStateLevel stateF
      center_anomalies := detectCenter centerOps
      retry_anomalies := detectRetry authRetries
      seasonal_anomalies := detectSeasonal regionUpdates
      confirmed_anomalies := conf.1
      potential_anomalies := conf.2 }
  generateAnomalyReport (detectPeerLag benchmark (applyPatternCorrelation now s))

set_option maxRecDepth 40000

/-! SHA-256 known-answer tests (NIST vectors). -/

example : String.mk (hexDigestChars (strBytes "abc")) =
    "ba7816bf8f01cfea414140de5dae2223b00361a396177a9cb410ff61f20015ad" := by decide

example : String.mk (hexDigestChars (strBytes "")) =
    "e3b0c44298fc1c149afbf4c8996fb92427ae41e4649b934ca495991b7852b855" := by decide

/-! ## Characterisation of the confirmation loop (helper lemmas) -/

/-- The pairs of `ps` whose anomaly has signature `s`, keeping their sources. -/
def srcsOf (ps : List (String × AnomalyRec)) (s : Option ℤ × Option String × String) :
    List String :=
  (ps.filter (fun p => decide (sigOf p.2 = s))).map (·.1)

/-- What one dictionary entry of the confirmation loop must hold after
processing `ps`: the retained record is the first matching anomaly, the
distinct sources in first-insertion order, and the full source list. -/
def entryConsistent (ps : List (String × AnomalyRec)) (e : SigEntry) : Prop :=
  (∃ p, ps.find? (fun p => decide (sigOf p.2 = e.sig)) = some p ∧
        e.details = { p.2 with detected_by := [] }) ∧
  e.srcs = uniqueFirst (srcsOf ps e.sig) ∧
  e.dby = srcsOf ps e.sig

lemma uniqueFirst_go_mem {α : Type} [DecidableEq α] (l : List α) (acc : List α) (x : α) :
    x ∈ l.foldl (fun acc s => if s ∈ acc then acc else acc ++ [s]) acc ↔ x ∈ acc ∨ x ∈ l := by
  induction l generalizing acc with
  | nil => simp
  | cons a t ih =>
    by_cases h : a ∈ acc
    · simp only [List.foldl_cons, if_pos h, ih, List.mem_cons]
      constructor
      · rintro (h' | h') <;> tauto
      · rintro (h' | rfl | h') <;> tauto
    · simp only [List.foldl_cons, if_neg h, ih, List.mem_append, List.mem_singleton,
        List.mem_cons]
      tauto

lemma mem_uniqueFirst {α : Type} [DecidableEq α] (l : List α) (x : α) :
    x ∈ uniqueFirst l ↔ x ∈ l := by
  simpa [uniqueFirst] using uniqueFirst_go_mem l [] x

lemma uniqueFirst_append_one {α : Type} [DecidableEq α] (l : List α) (y : α) :
    uniqueFirst (l ++ [y]) =
      if y ∈ uniqueFirst l then uniqueFirst l else uniqueFirst l ++ [y] := by
  simp [uniqueFirst, List.foldl_append]

lemma srcsOf_append_one (ps : List (String × AnomalyRec)) (p : String × AnomalyRec)
    (s : Option ℤ × Option String × String) :
    srcsOf (ps ++ [p]) s = srcsOf ps s ++ (if sigOf p.2 = s then [p.1] else []) := by
  by_cases h : sigOf p.2 = s <;> simp [srcsOf, List.filter_append, h]

lemma msProcess_append (l₁ l₂ : List (String × AnomalyRec)) (es : List SigEntry) :
    msProcess es (l₁ ++ l₂) = msProcess (msProcess es l₁) l₂ := by
  induction l₁ generalizing es with
  | nil => simp [msProcess]
  | cons p t ih => simp [msProcess, ih]

/-- Full characterisation of the confirmation dictionaries after the loop. -/
lemma msProcess_sound (ps : List (String × AnomalyRec)) :
    ((msProcess [] ps).map (·.sig)).Nodup ∧
    (∀ e ∈ msProcess [] ps, entryConsistent ps e) ∧
    (∀ s, (∃ e ∈ msProcess [] ps, e.sig = s) ↔ (∃ p ∈ ps, sigOf p.2 = s)) := by
  induction ps using List.reverseRecOn with
  | nil => simp [msProcess]
  | append_singleton ps p ih =>
    obtain ⟨hnd, hcons, hmem⟩ := ih
    rw [msProcess_append]
    show _ ∧ (∀ e ∈ msProcess (msProcess [] ps) [p], _) ∧ _
    have hstep : msProcess (msProcess [] ps) [p] = msAdd (msProcess [] ps) p.1 p.2 := rfl
    rw [hstep]
    by_cases hin : ∃ e ∈ msProcess [] ps, e.sig = sigOf p.2
    · -- the signature is already present: in-place update of its entry
      have hany : (msProcess [] ps).any (fun e => decide (e.sig = sigOf p.2)) = true := by
        rw [List.any_eq_true]
        obtain ⟨e, he, hsig⟩ := hin
        exact ⟨e, he, by simp [hsig]⟩
      have hupd : msAdd (msProcess [] ps) p.1 p.2 =
          (msProcess [] ps).map (fun e =>
            if e.sig = sigOf p.2 then
              { e with srcs := if p.1 ∈ e.srcs then e.srcs else e.srcs ++ [p.1]
                       dby := e.dby ++ [p.1] }
            else e) := by
        simp [msAdd, hany]
      rw [hupd]
      have hsig_pres : ∀ e : SigEntry,
          (if e.sig = sigOf p.2 then
            { e with srcs := if p.1 ∈ e.srcs then e.srcs else e.srcs ++ [p.1]
                     dby := e.dby ++ [p.1] }
          else e).sig = e.sig := by
        intro e; split <;> rfl
      refine ⟨?_, ?_, ?_⟩
      · rw [List.map_map]
        have : ((msProcess [] ps).map fun e => ((fun e =>
            if e.sig = sigOf p.2 then
              { e with srcs := if p.1 ∈ e.srcs then e.srcs else e.srcs ++ [p.1]
                       dby := e.dby ++ [p.1] }
            else e) e).sig) = (msProcess [] ps).map (·.sig) :=
          List.map_congr_left (fun e _ => hsig_pres e)
        rw [Function.comp_def]
        rw [this]
        exact hnd
      · intro e' he'
        rw [List.mem_map] at he'
        obtain ⟨e, he, rfl⟩ := he'
        obtain ⟨⟨p₀, hfind, hdet⟩, hsrcs, hdby⟩ := hcons e he
        by_cases hs : e.sig = sigOf p.2
        · rw [if_pos hs]
          refine ⟨⟨p₀, ?_, hdet⟩, ?_, ?_⟩
          · show (ps ++ [p]).find? _ = some p₀
            rw [List.find?_append, hfind]; rfl
          · show _ = uniqueFirst (srcsOf (ps ++ [p]) e.sig)
            rw [srcsOf_append_one, if_pos hs.symm, uniqueFirst_append_one, ← hsrcs]
          · show _ = srcsOf (ps ++ [p]) e.sig
            rw [srcsOf_append_one, if_pos hs.symm, ← hdby]
        · rw [if_neg hs]
          refine ⟨⟨p₀, ?_, hdet⟩, ?_, ?_⟩
          · rw [List.find?_append, hfind]; rfl
          · rw [srcsOf_append_one, if_neg (fun h => hs h.symm), List.append_nil, hsrcs]
          · rw [srcsOf_append_one, if_neg (fun h => hs h.symm), List.append_nil, hdby]
      · intro s
        constructor
        · rintro ⟨e', he', rfl⟩
          rw [List.mem_map] at he'
          obtain ⟨e, he, rfl⟩ := he'
          rw [hsig_pres]
          obtain ⟨q, hq, hqs⟩ := (hmem e.sig).mp ⟨e, he, rfl⟩
          exact ⟨q, List.mem_append_left _ hq, hqs⟩
        · rintro ⟨q, hq, rfl⟩
          rcases List.mem_append.mp hq with hq' | hq'
          · obtain ⟨e, he, hes⟩ := (hmem (sigOf q.2)).mpr ⟨q, hq', rfl⟩
            refine ⟨_, List.mem_map_of_mem _ he, ?_⟩
            rw [hsig_pres]; exact hes
          · rw [List.mem_singleton] at hq'
            subst hq'
            obtain ⟨e, he, hes⟩ := hin
            refine ⟨_, List.mem_map_of_mem _ he, ?_⟩
            rw [hsig_pres]; exact hes
    · -- fresh signature: a new entry is appended
      have hany : (msProcess [] ps).any (fun e => decide (e.sig = sigOf p.2)) = false := by
        rw [List.any_eq_false]
        intro e he
        simp only [decide_eq_true_eq]
        exact fun h => hin ⟨e, he, h⟩
      have hupd : msAdd (msProcess [] ps) p.1 p.2 =
          msProcess [] ps ++ [⟨sigOf p.2, { p.2 with detected_by := [] }, [p.1], [p.1]⟩] := by
        simp [msAdd, hany]
      rw [hupd]
      have hnotin : sigOf p.2 ∉ (msProcess [] ps).map (·.sig) := by
        intro h
        rw [List.mem_map] at h
        obtain ⟨e, he, hes⟩ := h
        exact hin ⟨e, he, hes⟩
      have hfind_none : ps.find? (fun q => decide (sigOf q.2 = sigOf p.2)) = none := by
        rw [List.find?_eq_none]
        intro q hq
        simp only [decide_eq_true_eq]
        intro h
        obtain ⟨e, he, hes⟩ := (hmem (sigOf p.2)).mpr ⟨q, hq, h⟩
        exact hin ⟨e, he, hes⟩
      refine ⟨?_, ?_, ?_⟩
      · rw [List.map_append]
        simp only [List.map_cons, List.map_nil]
        rw [List.nodup_append]
        exact ⟨hnd, List.nodup_singleton _, by simpa using hnotin⟩
      · intro e' he'
        rcases List.mem_append.mp he' with he | he
        · obtain ⟨⟨p₀, hfind, hdet⟩, hsrcs, hdby⟩ := hcons e' he
          have hs : ¬ (sigOf p.2 = e'.sig) := by
            intro h
            exact hin ⟨e', he, h.symm⟩
          refine ⟨⟨p₀, ?_, hdet⟩, ?_, ?_⟩
          · rw [List.find?_append, hfind]; rfl
          · rw [srcsOf_append_one, if_neg hs, List.append_nil, hsrcs]
          · rw [srcsOf_append_one, if_neg hs, List.append_nil, hdby]
        · rw [List.mem_singleton] at he
          subst he
          refine ⟨⟨p, ?_, rfl⟩, ?_, ?_⟩
          · show (ps ++ [p]).find? _ = some p
            rw [List.find?_append, hfind_none]
            simp [List.find?]
          · show _ = uniqueFirst (srcsOf (ps ++ [p]) (sigOf p.2))
            rw [srcsOf_append_one, if_pos rfl]
            have : srcsOf ps (sigOf p.2) = [] := by
              rw [srcsOf, List.map_eq_nil_iff, List.filter_eq_nil_iff]
              intro q hq
              simp only [decide_eq_true_eq]
              intro h
              obtain ⟨e, he, hes⟩ := (hmem (sigOf p.2)).mpr ⟨q, hq, h⟩
              exact hin ⟨e, he, hes⟩
            rw [this]
            rfl
          · show _ = srcsOf (ps ++ [p]) (sigOf p.2)
            rw [srcsOf_append_one, if_pos rfl]
            have : srcsOf ps (sigOf p.2) = [] := by
              rw [srcsOf, List.map_eq_nil_iff, List.filter_eq_nil_iff]
              intro q hq
              simp only [decide_eq_true_eq]
              intro h
              obtain ⟨e, he, hes⟩ := (hmem (sigOf p.2)).mpr ⟨q, hq, h⟩
              exact hin ⟨e, he, hes⟩
            rw [this]
            rfl
      · intro s
        constructor
        · rintro ⟨e', he', rfl⟩
          rcases List.mem_append.mp he' with he | he
          · obtain ⟨q, hq, hqs⟩ := (hmem e'.sig).mp ⟨e', he, rfl⟩
            exact ⟨q, List.mem_append_left _ hq, hqs⟩
          · rw [List.mem_singleton] at he
            subst he
            exact ⟨p, List.mem_append_right _ (List.mem_singleton_self p), rfl⟩
        · rintro ⟨q, hq, rfl⟩
          rcases List.mem_append.mp hq with hq' | hq'
          · obtain ⟨e, he, hes⟩ := (hmem (sigOf q.2)).mpr ⟨q, hq', rfl⟩
            exact ⟨e, List.mem_append_left _ he, hes⟩
          · rw [List.mem_singleton] at hq'
            subst hq'
            exact ⟨_, List.mem_append_right _ (List.mem_singleton_self _), rfl⟩

/-- Finalisation keeps the retained record's identity/value fields, stores the
distinct-source count, and branches only on that count. -/
lemma msFinalize_fields (e : SigEntry) :
    (msFinalize e).month = e.details.month ∧
    (msFinalize e).date = e.details.date ∧
    (msFinalize e).region = e.details.region ∧
    (msFinalize e).state = e.details.state ∧
    (msFinalize e).center_id = e.details.center_id ∧
    (msFinalize e).metric = e.details.metric ∧
    (msFinalize e).value = e.details.value ∧
    (msFinalize e).anomaly_type = e.details.anomaly_type ∧
    (msFinalize e).detection_count = some e.srcs.length ∧
    (msFinalize e).confirmation_status =
      some (if 2 ≤ e.srcs.length then "CONFIRMED" else "POTENTIAL") ∧
    (msFinalize e).severity =
      (if 2 ≤ e.srcs.length then some "High" else e.details.severity) := by
  by_cases h : 2 ≤ e.srcs.length <;> simp [msFinalize, h]

/-- The emitted record keeps the signature of its entry. -/
lemma sigOf_msFinalize (ps : List (String × AnomalyRec)) (e : SigEntry)
    (h : entryConsistent ps e) : sigOf (msFinalize e) = e.sig := by
  obtain ⟨⟨p₀, hfind, hdet⟩, -, -⟩ := h
  have hsig : sigOf p₀.2 = e.sig := by
    have := List.find?_some hfind
    simpa using this
  have h1 : sigOf (msFinalize e) = sigOf e.details := by
    by_cases h : 2 ≤ e.srcs.length <;> simp [msFinalize, sigOf, h]
  rw [h1, hdet, ← hsig]
  rfl

/-- Both output lists of `multisignalConfirmation` come from finalized entries. -/
lemma multisignal_mem (sources : List (String × List AnomalyRec)) (r : AnomalyRec) :
    (r ∈ (multisignalConfirmation sources).1 ↔
      ∃ e ∈ msProcess [] (msPairs sources), 2 ≤ e.srcs.length ∧ r = msFinalize e) ∧
    (r ∈ (multisignalConfirmation sources).2 ↔
      ∃ e ∈ msProcess [] (msPairs sources), ¬ 2 ≤ e.srcs.length ∧ r = msFinalize e) := by
  constructor
  · simp only [multisignalConfirmation, List.mem_map, List.mem_filter,
      decide_eq_true_eq]
    constructor
    · rintro ⟨e, ⟨he, hlen⟩, rfl⟩; exact ⟨e, he, hlen, rfl⟩
    · rintro ⟨e, he, hlen, rfl⟩; exact ⟨e, ⟨he, hlen⟩, rfl⟩
  · simp only [multisignalConfirmation, List.mem_map, List.mem_filter,
      decide_eq_true_eq]
    constructor
    · rintro ⟨e, ⟨he, hlen⟩, rfl⟩; exact ⟨e, he, hlen, rfl⟩
    · rintro ⟨e, he, hlen, rfl⟩; exact ⟨e, ⟨he, hlen⟩, rfl⟩

/-! ## C1 — multi-signal confirmation rule -/

/-- C1 counterexample input: the same `(date, region, metric)` signature from
two sources, the first carrying severity Critical. -/
def c1First : AnomalyRec :=
  { date := some 19723, region := some "R1", metric := some "update_volume_count",
    anomaly_type := some "Seasonal Deviation", severity := some "Critical" }

/-- Second source's record for the same signature. -/
def c1Second : AnomalyRec :=
  { date := some 19723, region := some "R1", metric := some "update_volume_count",
    anomaly_type := some "Isolation Forest Outlier", severity := some "Medium" }

/-- The C1 counterexample source mapping. -/
def c1Sources : List (String × List AnomalyRec) :=
  [("statistical_seasonal", [c1First]), ("isolation_forest", [c1Second])]

/-- C1, counterexample: a Critical anomaly confirmed by two distinct sources is
emitted with severity exactly 'High' — the source's unconditional
`anomaly['severity'] = 'High'` downgrades Critical, so "a Critical anomaly
stays Critical or higher" fails. -/
theorem C1_counterexample :
    c1First.severity = some "Critical" ∧
    (multisignalConfirmation c1Sources).1.map (fun r => r.severity) = [some "High"] ∧
    (multisignalConfirmation c1Sources).2 = [] := by
  refine ⟨rfl, ?_, ?_⟩ <;> decide

/-- C1 (amended): grouping is by the `(date, region, metric-or-'general')`
signature; a signature produced by ≥ 2 distinct sources is emitted CONFIRMED
with severity set to exactly 'High' (so a Critical anomaly is downgraded, not
kept); a signature produced by exactly one distinct source is emitted POTENTIAL
with the first-seen severity unchanged, and `detection_count` records the
distinct-source count in both cases. -/
theorem C1_multisignal_rule (sources : List (String × List AnomalyRec)) :
    (∀ r ∈ (multisignalConfirmation sources).1,
      r.confirmation_status = some "CONFIRMED" ∧
      r.severity = some "High" ∧
      r.detection_count = some (uniqueFirst (srcsOf (msPairs sources) (sigOf r))).length ∧
      2 ≤ (uniqueFirst (srcsOf (msPairs sources) (sigOf r))).length) ∧
    (∀ r ∈ (multisignalConfirmation sources).2,
      r.confirmation_status = some "POTENTIAL" ∧
      (∃ q, (msPairs sources).find? (fun p => decide (sigOf p.2 = sigOf r)) = some q ∧
        r.severity = q.2.severity) ∧
      r.detection_count = some (uniqueFirst (srcsOf (msPairs sources) (sigOf r))).length ∧
      (uniqueFirst (srcsOf (msPairs sources) (sigOf r))).length = 1) := by
  obtain ⟨-, hcons, -⟩ := msProcess_sound (msPairs sources)
  constructor
  · intro r hr
    obtain ⟨e, he, hlen, rfl⟩ := ((multisignal_mem sources r).1).mp hr
    obtain ⟨hm, hd, hreg, hst, hc, hmet, hv, hat, hdc, hcs, hsev⟩ := msFinalize_fields e
    obtain ⟨⟨p₀, hfind, hdet⟩, hsrcs, hdby⟩ := hcons e he
    have hsig := sigOf_msFinalize (msPairs sources) e (hcons e he)
    refine ⟨by rw [hcs, if_pos hlen], by rw [hsev, if_pos hlen], ?_, ?_⟩
    · rw [hdc, hsig, ← hsrcs]
    · rw [hsig, ← hsrcs]; exact hlen
  · intro r hr
    obtain ⟨e, he, hlen, rfl⟩ := ((multisignal_mem sources r).2).mp hr
    obtain ⟨hm, hd, hreg, hst, hc, hmet, hv, hat, hdc, hcs, hsev⟩ := msFinalize_fields e
    obtain ⟨⟨p₀, hfind, hdet⟩, hsrcs, hdby⟩ := hcons e he
    have hsig := sigOf_msFinalize (msPairs sources) e (hcons e he)
    have hone : e.srcs.length = 1 := by
      have hpos : e.srcs ≠ [] := by
        rw [hsrcs]
        intro hnil
        have hp₀mem : p₀.1 ∈ uniqueFirst (srcsOf (msPairs sources) e.sig) := by
          rw [mem_uniqueFirst]
          have hmemf := List.mem_of_find?_eq_some hfind
          have hpred := List.find?_some hfind
          simp only [decide_eq_true_eq] at hpred
          exact List.mem_map_of_mem _ (List.mem_filter.mpr ⟨hmemf, by simp [hpred]⟩)
        rw [hnil] at hp₀mem
        exact List.not_mem_nil _ hp₀mem
      have := List.length_pos.mpr hpos
      omega
    refine ⟨by rw [hcs, if_neg hlen], ⟨p₀, ?_, ?_⟩, ?_, ?_⟩
    · rw [hsig]; exact hfind
    · rw [hsev, if_neg hlen, hdet]
    · rw [hdc, hsig, ← hsrcs]
    · rw [hsig, ← hsrcs, hone]

/-- Witness input for C1: one signature seen by two sources (first severity
Medium), a second signature seen once. -/
def c1wOther : AnomalyRec :=
  { date := some 19724, region := some "R2", metric := some "update_volume_count",
    anomaly_type := some "Regime Change", severity := some "High" }

/-- Witness sources for C1. -/
def c1wSources : List (String × List AnomalyRec) :=
  [("statistical_seasonal", [c1Second]), ("zscore_cluster", [c1Second]),
   ("changepoint", [c1wOther])]

/-- The confirmed record the witness run emits. -/
def c1wConfirmed : AnomalyRec :=
  { date := some 19723, region := some "R1", metric := some "update_volume_count",
    anomaly_type := some "Isolation Forest Outlier", severity := some "High",
    detected_by := ["statistical_seasonal", "zscore_cluster"],
    detection_count := some 2, sources := some "statistical_seasonal, zscore_cluster",
    confirmation_status := some "CONFIRMED" }

/-- The potential record the witness run emits. -/
def c1wPotential : AnomalyRec :=
  { date := some 19724, region := some "R2", metric := some "update_volume_count",
    anomaly_type := some "Regime Change", severity := some "High",
    detected_by := ["changepoint"], detection_count := some 1,
    sources := some "changepoint", confirmation_status := some "POTENTIAL" }

/-- C1 witness: the amended rule applied to a concrete run. -/
theorem C1_multisignal_rule_witness :
    c1wConfirmed.confirmation_status = some "CONFIRMED" ∧
    c1wConfirmed.severity = some "High" ∧
    c1wPotential.confirmation_status = some "POTENTIAL" ∧
    c1wPotential.severity = c1wOther.severity := by
  have hc : c1wConfirmed ∈ (multisignalConfirmation c1wSources).1 := by
    have h : (multisignalConfirmation c1wSources).1 = [c1wConfirmed] := by decide
    rw [h]; exact List.mem_singleton_self _
  have hp : c1wPotential ∈ (multisignalConfirmation c1wSources).2 := by
    have h : (multisignalConfirmation c1wSources).2 = [c1wPotential] := by decide
    rw [h]; exact List.mem_singleton_self _
  have h1 := (C1_multisignal_rule c1wSources).1 c1wConfirmed hc
  have h2 := (C1_multisignal_rule c1wSources).2 c1wPotential hp
  obtain ⟨q, hq, hsev⟩ := h2.2.1
  have hq' : q = ("changepoint", c1wOther) := by
    have hfind : (msPairs c1wSources).find?
        (fun p => decide (sigOf p.2 = sigOf c1wPotential)) =
        some ("changepoint", c1wOther) := by decide
    rw [hfind] at hq
    exact (Option.some_inj.mp hq).symm
  refine ⟨h1.1, h1.2.1, h2.1, ?_⟩
  rw [hsev, hq']

/-! ## C10 — one record per signature, first-anomaly fields retained -/

/-- C10 counterexample: first record of a doubly-detected signature, severity
Medium. -/
def c10First : AnomalyRec :=
  { date := some 19723, region := some "R3", metric := some "update_volume_count",
    anomaly_type := some "Seasonal Deviation", severity := some "Medium" }

/-- Second record of the same signature. -/
def c10Second : AnomalyRec :=
  { date := some 19723, region := some "R3", metric := some "update_volume_count",
    anomaly_type := some "Z-score Cluster Outlier", severity := some "Medium" }

/-- C10 counterexample source mapping. -/
def c10Sources : List (String × List AnomalyRec) :=
  [("statistical_seasonal", [c10First]), ("zscore_cluster", [c10Second])]

/-- C10, counterexample: the single emitted record of the signature does NOT
keep all field values of the first anomaly encountered — its severity is
overwritten to 'High' by confirmation (first anomaly had Medium). -/
theorem C10_counterexample :
    (msPairs c10Sources).find? (fun p => decide (sigOf p.2 = sigOf c10First)) =
      some ("statistical_seasonal", c10First) ∧
    (multisignalConfirmation c10Sources).1.map (fun r => (sigOf r, r.severity)) =
      [(sigOf c10First, some "High")] ∧
    (multisignalConfirmation c10Sources).2 = [] ∧
    c10First.severity = some "Medium" := by decide

/-- C10 (amended): multi-signal confirmation emits exactly one record per
distinct signature (the confirmed and potential lists partition the distinct
signatures), and the emitted record keeps the field values of the first
anomaly encountered for that signature — except severity, which confirmation
overwrites to 'High' for CONFIRMED records (POTENTIAL records keep it);
later anomalies sharing the signature contribute only their source name
(the distinct-source `detection_count`), their field values being discarded. -/
theorem C10_confirmation_grouping (sources : List (String × List AnomalyRec)) :
    ((((multisignalConfirmation sources).1 ++ (multisignalConfirmation sources).2).map
      sigOf).Nodup) ∧
    (∀ s, (∃ r ∈ (multisignalConfirmation sources).1 ++ (multisignalConfirmation sources).2,
        sigOf r = s) ↔ (∃ p ∈ msPairs sources, sigOf p.2 = s)) ∧
    (∀ r ∈ (multisignalConfirmation sources).1 ++ (multisignalConfirmation sources).2,
      ∃ q, (msPairs sources).find? (fun p => decide (sigOf p.2 = sigOf r)) = some q ∧
        r.month = q.2.month ∧ r.date = q.2.date ∧ r.region = q.2.region ∧
        r.state = q.2.state ∧ r.center_id = q.2.center_id ∧ r.metric = q.2.metric ∧
        r.value = q.2.value ∧ r.anomaly_type = q.2.anomaly_type ∧
        (r.confirmation_status = some "POTENTIAL" → r.severity = q.2.severity) ∧
        (r.confirmation_status = some "CONFIRMED" → r.severity = some "High") ∧
        r.detection_count = some (uniqueFirst (srcsOf (msPairs sources) (sigOf r))).length) := by
  obtain ⟨hnd, hcons, hmem⟩ := msProcess_sound (msPairs sources)
  have hflip : (fun (e : SigEntry) => decide (¬ 2 ≤ e.srcs.length)) =
      fun e => !decide (2 ≤ e.srcs.length) := by
    funext e; exact decide_not
  have hout : (multisignalConfirmation sources).1 ++ (multisignalConfirmation sources).2 =
      ((msProcess [] (msPairs sources)).filter (fun e => decide (2 ≤ e.srcs.length)) ++
       (msProcess [] (msPairs sources)).filter
         (fun e => !decide (2 ≤ e.srcs.length))).map msFinalize := by
    simp only [multisignalConfirmation, List.map_append, hflip]
  have hperm : ((msProcess [] (msPairs sources)).filter (fun e => decide (2 ≤ e.srcs.length)) ++
      (msProcess [] (msPairs sources)).filter (fun e => !decide (2 ≤ e.srcs.length))).Perm
      (msProcess [] (msPairs sources)) :=
    List.filter_append_perm _ _
  have hmemE : ∀ e ∈ (msProcess [] (msPairs sources)).filter
        (fun e => decide (2 ≤ e.srcs.length)) ++
      (msProcess [] (msPairs sources)).filter (fun e => !decide (2 ≤ e.srcs.length)),
      e ∈ msProcess [] (msPairs sources) := by
    intro e he
    rcases List.mem_append.mp he with h | h
    · exact List.mem_of_mem_filter h
    · exact List.mem_of_mem_filter h
  have hsigmap : (((msProcess [] (msPairs sources)).filter
        (fun e => decide (2 ≤ e.srcs.length)) ++
      (msProcess [] (msPairs sources)).filter
        (fun e => !decide (2 ≤ e.srcs.length))).map msFinalize).map sigOf =
      ((msProcess [] (msPairs sources)).filter (fun e => decide (2 ≤ e.srcs.length)) ++
       (msProcess [] (msPairs sources)).filter
         (fun e => !decide (2 ≤ e.srcs.length))).map (·.sig) := by
    rw [List.map_map]
    exact List.map_congr_left (fun e he => sigOf_msFinalize _ e (hcons e (hmemE e he)))
  refine ⟨?_, ?_, ?_⟩
  · rw [hout, hsigmap]
    exact ((hperm.map (·.sig)).nodup_iff).mpr hnd
  · intro s
    constructor
    · rintro ⟨r, hr, rfl⟩
      rcases List.mem_append.mp hr with h | h
      · obtain ⟨e, he, hlen, rfl⟩ := ((multisignal_mem sources r).1).mp h
        rw [sigOf_msFinalize _ e (hcons e he)]
        exact (hmem e.sig).mp ⟨e, he, rfl⟩
      · obtain ⟨e, he, hlen, rfl⟩ := ((multisignal_mem sources r).2).mp h
        rw [sigOf_msFinalize _ e (hcons e he)]
        exact (hmem e.sig).mp ⟨e, he, rfl⟩
    · intro hp
      obtain ⟨e, he, hes⟩ := (hmem s).mpr hp
      by_cases hlen : 2 ≤ e.srcs.length
      · refine ⟨msFinalize e, List.mem_append_left _
          (((multisignal_mem sources (msFinalize e)).1).mpr ⟨e, he, hlen, rfl⟩), ?_⟩
        rw [sigOf_msFinalize _ e (hcons e he)]; exact hes
      · refine ⟨msFinalize e, List.mem_append_right _
          (((multisignal_mem sources (msFinalize e)).2).mpr ⟨e, he, hlen, rfl⟩), ?_⟩
        rw [sigOf_msFinalize _ e (hcons e he)]; exact hes
  · intro r hr
    have hr' : ∃ e ∈ msProcess [] (msPairs sources), r = msFinalize e := by
      rcases List.mem_append.mp hr with h | h
      · obtain ⟨e, he, -, rfl⟩ := ((multisignal_mem sources r).1).mp h
        exact ⟨e, he, rfl⟩
      · obtain ⟨e, he, -, rfl⟩ := ((multisignal_mem sources r).2).mp h
        exact ⟨e, he, rfl⟩
    obtain ⟨e, he, rfl⟩ := hr'
    obtain ⟨⟨p₀, hfind, hdet⟩, hsrcs, hdby⟩ := hcons e he
    obtain ⟨hm, hd, hreg, hst, hc, hmet, hv, hat, hdc, hcs, hsev⟩ := msFinalize_fields e
    have hsig := sigOf_msFinalize _ e (hcons e he)
    refine ⟨p₀, by rw [hsig]; exact hfind, ?_, ?_, ?_, ?_, ?_, ?_, ?_, ?_, ?_, ?_, ?_⟩
    · rw [hm, hdet]
    · rw [hd, hdet]
    · rw [hreg, hdet]
    · rw [hst, hdet]
    · rw [hc, hdet]
    · rw [hmet, hdet]
    · rw [hv, hdet]
    · rw [hat, hdet]
    · intro hpot
      rw [hcs] at hpot
      by_cases hlen : 2 ≤ e.srcs.length
      · rw [if_pos hlen] at hpot; simp at hpot
      · rw [hsev, if_neg hlen, hdet]
    · intro hconf
      rw [hcs] at hconf
      by_cases hlen : 2 ≤ e.srcs.length
      · rw [hsev, if_pos hlen]
      · rw [if_neg hlen] at hconf; simp at hconf
    · rw [hdc, hsig, ← hsrcs]

/-- C10 witness input: a single source producing a single anomaly. -/
def c10wSources : List (String × List AnomalyRec) :=
  [("isolation_forest", [c10Second])]

/-- The record the C10 witness run emits. -/
def c10wOut : AnomalyRec :=
  { date := some 19723, region := some "R3", metric := some "update_volume_count",
    anomaly_type := some "Z-score Cluster Outlier", severity := some "Medium",
    detected_by := ["isolation_forest"], detection_count := some 1,
    sources := some "isolation_forest", confirmation_status := some "POTENTIAL" }

/-- C10 witness: the amended grouping law applied to a concrete run. -/
theorem C10_confirmation_grouping_witness :
    c10wOut.anomaly_type = c10Second.anomaly_type ∧
    c10wOut.severity = c10Second.severity ∧
    c10wOut.detection_count = some 1 := by
  have hmem : c10wOut ∈ (multisignalConfirmation c10wSources).1 ++
      (multisignalConfirmation c10wSources).2 := by
    have h : (multisignalConfirmation c10wSources).1 ++
        (multisignalConfirmation c10wSources).2 = [c10wOut] := by decide
    rw [h]; exact List.mem_singleton_self _
  obtain ⟨q, hq, hm, hd, hreg, hst, hc, hmet, hv, hat, hpot, hconf, hdc⟩ :=
    (C10_confirmation_grouping c10wSources).2.2 c10wOut hmem
  have hq' : q = ("isolation_forest", c10Second) := by
    have hfind : (msPairs c10wSources).find?
        (fun p => decide (sigOf p.2 = sigOf c10wOut)) =
        some ("isolation_forest", c10Second) := by decide
    rw [hfind] at hq
    exact (Option.some_inj.mp hq).symm
  subst hq'
  refine ⟨hat, hpot rfl, ?_⟩
  rw [hdc]
  decide

/-! ## C3 — weekly-dip suppression -/

/-- The suppression test in propositional form. -/
lemma corrSuppressed_iff (hasDate : Bool) (now : ℤ) (a : AnomalyRec) :
    corrSuppressed hasDate now a = true ↔
      ((∃ t, a.anomaly_type = some t ∧ "Drop".data <:+: t.data) ∧
       (∃ d, corrDateDt hasDate now a = some d ∧ weekday d = 6)) := by
  unfold corrSuppressed
  cases hat : a.anomaly_type <;> cases hd : corrDateDt hasDate now a <;> simp

/-- Members of the correlation output are enrichments of members of the input. -/
lemma runCorrelationPipeline_mem (l : List AnomalyRec) (now : ℤ) (r : AnomalyRec)
    (hr : r ∈ runCorrelationPipeline l now) :
    ∃ a ∈ l, r = corrEnrich l (l.any (fun a => a.date.isSome))
      (l.any (fun a => a.region.isSome)) (l.any (fun a => a.center_id.isSome))
      (l.any (fun a => a.anomaly_type.isSome)) now a := by
  unfold runCorrelationPipeline at hr
  by_cases hl : l = []
  · rw [if_pos hl] at hr; exact absurd hr (List.not_mem_nil r)
  · rw [if_neg hl] at hr
    obtain ⟨a, ha, rfl⟩ := List.mem_map.mp hr
    exact ⟨a, ha, rfl⟩

/-- The enrichment's suppression-related projections. -/
lemma corrEnrich_suppression_fields (l : List AnomalyRec) (hd hg hc ht : Bool) (now : ℤ)
    (a : AnomalyRec) :
    (corrEnrich l hd hg hc ht now a).is_suppressed = some (corrSuppressed hd now a) ∧
    (corrEnrich l hd hg hc ht now a).suppression_reason =
      (if corrSuppressed hd now a then some weeklyDipReason else none) ∧
    (corrEnrich l hd hg hc ht now a).anomaly_type = a.anomaly_type ∧
    (corrEnrich l hd hg hc ht now a).date_dt = corrDateDt hd now a := by
  refine ⟨rfl, rfl, rfl, rfl⟩

/-- C3 (amended): the correlation engine suppresses exactly the anomalies whose
`anomaly_type` contains 'Drop' and whose (parsed) date falls on a Sunday, with
reason the fixed string "Historical Pattern: Weekly Sunday Dip (Benign)" —
which contains "Weekly Sunday Dip" but NOT the contiguous substring
"Weekly Dip"; all other anomalies leave the step unsuppressed with no reason. -/
theorem C3_weekly_dip_suppression (l : List AnomalyRec) (now : ℤ) (r : AnomalyRec)
    (hr : r ∈ runCorrelationPipeline l now) :
    (r.is_suppressed = some true ↔
      ((∃ t, r.anomaly_type = some t ∧ "Drop".data <:+: t.data) ∧
       (∃ d, r.date_dt = some d ∧ weekday d = 6))) ∧
    (r.is_suppressed = some true →
      r.suppression_reason = some weeklyDipReason ∧
      "Weekly Sunday Dip".data <:+: weeklyDipReason.data) ∧
    (r.is_suppressed ≠ some true →
      r.is_suppressed = some false ∧ r.suppression_reason = none) := by
  obtain ⟨a, ha, rfl⟩ := runCorrelationPipeline_mem l now r hr
  obtain ⟨h1, h2, h3, h4⟩ := corrEnrich_suppression_fields l _ _ _ _ now a
  rw [h1, h2, h3, h4]
  by_cases hs : corrSuppressed (l.any (fun a => a.date.isSome)) now a = true
  · refine ⟨?_, ?_, ?_⟩
    · rw [hs]
      simpa using (corrSuppressed_iff _ now a).mp hs
    · intro _
      rw [if_pos hs]
      exact ⟨rfl, by decide⟩
    · intro hcon
      rw [hs] at hcon
      exact absurd rfl hcon
  · have hs' : corrSuppressed (l.any (fun a => a.date.isSome)) now a = false :=
      Bool.eq_false_iff.mpr hs
    refine ⟨?_, ?_, ?_⟩
    · rw [hs']
      constructor
      · intro h; exact absurd h (by simp)
      · intro h
        exact absurd ((corrSuppressed_iff _ now a).mpr (by simpa using h)) hs
    · intro h
      rw [hs'] at h
      exact absurd h (by simp)
    · intro _
      rw [hs', if_neg (by simp [hs'])]
      exact ⟨rfl, rfl⟩

/-- C3 counterexample input: a 'Drop' anomaly dated Sunday 2024-01-07
(epoch day 19729). -/
def c3Drop : AnomalyRec :=
  { date := some 19729, region := some "R1", metric := some "total_enrolment",
    anomaly_type := some "Drop", severity := some "High" }

/-- C3, counterexample: the Sunday 'Drop' anomaly IS suppressed, but the
suppression reason does not contain the substring "Weekly Dip" claimed by the
spec — the code writes "Weekly Sunday Dip". -/
theorem C3_counterexample :
    weekday 19729 = 6 ∧
    (runCorrelationPipeline [c3Drop] 0).map
        (fun r => (r.is_suppressed, r.suppression_reason)) =
      [(some true, some weeklyDipReason)] ∧
    ¬ ("Weekly Dip".data <:+: weeklyDipReason.data) := by
  refine ⟨by decide, by decide, by decide⟩

/-- C3 witness: the amended suppression law applied to the concrete run. -/
theorem C3_weekly_dip_suppression_witness :
    (runCorrelationPipeline [c3Drop] 0).map (fun r => r.suppression_reason) =
      [some weeklyDipReason] := by
  have hsup : (runCorrelationPipeline [c3Drop] 0).map (fun r => r.is_suppressed) =
      [some true] := by decide
  cases hL : runCorrelationPipeline [c3Drop] 0 with
  | nil => rw [hL] at hsup; simp at hsup
  | cons r t =>
    rw [hL] at hsup
    cases t with
    | cons _ _ => simp at hsup
    | nil =>
      simp only [List.map_cons, List.map_nil, List.cons.injEq, and_true] at hsup ⊢
      have hr : r ∈ runCorrelationPipeline [c3Drop] 0 := by
        rw [hL]; exact List.mem_cons_self _ _
      exact ((C3_weekly_dip_suppression [c3Drop] 0 r hr).2.1 hsup).1

/-! ## C5 — standardized-cluster anomaly criterion -/

/-- Modelled from the spec's words for comparison (refinement check): "a
cluster whose mean absolute z-score over the three standardized metrics
exceeds 3.0" — the mean over the three metrics of the absolute per-metric
mean, as opposed to the source's maximum. -/
def specMeanAbsZ (pts : List (ℚ × ℚ × ℚ)) : ℚ :=
  let n : ℚ := pts.length
  let m1 := (pts.map (·.1)).sum / n
  let m2 := (pts.map (·.2.1)).sum / n
  let m3 := (pts.map (·.2.2)).sum / n
  (|m1| + |m2| + |m3|) / 3

/-- C5 (amended): a row is emitted by the standardized-cluster detector iff it
is DBSCAN noise (label -1) or its cluster's MAXIMUM over the three metrics of
the absolute per-metric mean z-score exceeds 3.0. -/
theorem C5_cluster_criterion (rows : List RegionRow) (x : List (ℚ × ℚ × ℚ))
    (labels : List ℤ) (r : RegionRow) (c : ℤ) (hmem : (r, c) ∈ rows.zip labels) :
    (r, c) ∈ (rows.zip labels).filter (fun p => zscoreClusterMask x labels p.2) ↔
      (c = -1 ∨ tripleMeanAbsMax (clusterMembers x labels c) > 3) := by
  have hc : c ∈ labels := (List.of_mem_zip hmem).2
  rw [List.mem_filter]
  constructor
  · rintro ⟨-, hmask⟩
    simp only [zscoreClusterMask, Bool.or_eq_true, decide_eq_true_eq] at hmask
    rcases hmask with h | h
    · simp only [anomalousClusters, List.mem_filter, decide_eq_true_eq] at h
      exact Or.inr h.2
    · exact Or.inl h
  · intro h
    refine ⟨hmem, ?_⟩
    simp only [zscoreClusterMask, Bool.or_eq_true, decide_eq_true_eq]
    rcases h with h | h
    · exact Or.inr h
    · by_cases hne : c = -1
      · exact Or.inr hne
      · refine Or.inl ?_
        simp only [anomalousClusters, List.mem_filter, decide_eq_true_eq]
        refine ⟨?_, h⟩
        rw [mem_uniqueFirst]
        exact List.mem_filter.mpr ⟨hc, by simp [hne]⟩

/-- C5 counterexample data: one DBSCAN cluster of three identical z-vectors
`(4, 0, 0)`. -/
def c5X : List (ℚ × ℚ × ℚ) := [(4, 0, 0), (4, 0, 0), (4, 0, 0)]

/-- C5 counterexample labels: all three rows in cluster 0. -/
def c5Labels : List ℤ := [0, 0, 0]

/-- C5, counterexample: the code's criterion (max over metrics = 4) emits the
cluster, while the claim's criterion (mean absolute z-score over the three
metrics = 4/3) does not exceed 3.0 — the claimed "if and only if" fails. -/
theorem C5_counterexample :
    zscoreClusterMask c5X c5Labels 0 = true ∧
    tripleMeanAbsMax (clusterMembers c5X c5Labels 0) = 4 ∧
    specMeanAbsZ (clusterMembers c5X c5Labels 0) = 4 / 3 ∧
    ¬ specMeanAbsZ (clusterMembers c5X c5Labels 0) > 3 ∧
    (0 : ℤ) ≠ -1 := by
  have hcm : clusterMembers c5X c5Labels 0 = [(4, 0, 0), (4, 0, 0), (4, 0, 0)] := rfl
  have h4 : tripleMeanAbsMax (clusterMembers c5X c5Labels 0) = 4 := by
    rw [hcm]
    norm_num [tripleMeanAbsMax]
  have hspec : specMeanAbsZ (clusterMembers c5X c5Labels 0) = 4 / 3 := by
    rw [hcm]
    norm_num [specMeanAbsZ]
  have hmem : (0 : ℤ) ∈ anomalousClusters c5X c5Labels := by
    simp only [anomalousClusters, List.mem_filter, decide_eq_true_eq]
    refine ⟨by rw [mem_uniqueFirst]; decide, by rw [h4]; norm_num⟩
  refine ⟨?_, h4, hspec, by rw [hspec]; norm_num, by decide⟩
  simp [zscoreClusterMask, hmem]

/-- C5 witness row data. -/
def c5Row : RegionRow :=
  { date := 19729, region := "R1", update_volume_count := 10,
    successful_updates := 9, rejected_updates := 1 }

/-- C5 witness: the amended criterion applied to a concrete noise row. -/
theorem C5_cluster_criterion_witness :
    (c5Row, (-1 : ℤ)) ∈ ([c5Row].zip [(-1 : ℤ)]).filter
      (fun p => zscoreClusterMask [(4, 0, 0)] [(-1 : ℤ)] p.2) := by
  have h := C5_cluster_criterion [c5Row] [(4, 0, 0)] [(-1 : ℤ)] c5Row (-1)
    (List.mem_singleton_self _)
  exact h.mpr (Or.inl rfl)

/-! ## C9 — absent optional datasets degrade to empty -/

/-- C9: every detector over an optional dataset (seasonal, center-ops,
auth-retry, isolation-forest, standardized-cluster, change-point) returns an
empty anomaly list when that dataset is `None` or empty, for any model body. -/
theorem C9_missing_optional_input :
    detectSeasonal none = [] ∧ detectSeasonal (some []) = [] ∧
    detectCenter none = [] ∧ detectCenter (some []) = [] ∧
    detectRetry none = [] ∧ detectRetry (some []) = [] ∧
    (∀ body : List RegionRow → List AnomalyRec,
      detectIsolationForest body none = [] ∧ detectIsolationForest body (some []) = []) ∧
    (∀ (zmat : List RegionRow → List (ℚ × ℚ × ℚ)) (dbscan : List (ℚ × ℚ × ℚ) → List ℤ),
      detectZscoreClusters zmat dbscan none = [] ∧
      detectZscoreClusters zmat dbscan (some []) = []) ∧
    (∀ body : List RegionRow → List AnomalyRec,
      detectChangepoints body none = [] ∧ detectChangepoints body (some []) = []) := by
  refine ⟨rfl, by decide, rfl, by decide, rfl, by decide,
    fun body => ⟨rfl, by simp [detectIsolationForest]⟩,
    fun zmat dbscan => ⟨rfl, by simp [detectZscoreClusters]⟩,
    fun body => ⟨rfl, by simp [detectChangepoints]⟩⟩

/-! ## C4 — confidence scoring -/

/-- Severity rank: Medium/other 0, High 1, Critical 2. -/
def sevRank (s : Option String) : Nat :=
  if s = some "Critical" then 2 else if s = some "High" then 1 else 0

lemma confSevBonus_mono (s₁ s₂ : Option String) (h : sevRank s₁ ≤ sevRank s₂) :
    confSevBonus s₁ ≤ confSevBonus s₂ := by
  by_cases h1 : s₁ = some "Critical" <;> by_cases h2 : s₂ = some "Critical" <;>
    by_cases h3 : s₁ = some "High" <;> by_cases h4 : s₂ = some "High" <;>
    simp_all [sevRank, confSevBonus] <;> norm_num

/-- C4: every anomaly emitted by the correlation engine carries
`confidence_score = min(99.9, 75 + severity bonus + concurrency bonus +
hotspot bonus + persistence bonus)` over its own enriched fields; the formula
is monotone in severity rank, concurrency, hotspot score and the persistence
flag, and never exceeds 99.9. -/
theorem C4_confidence_score :
    (∀ (l : List AnomalyRec) (now : ℤ), ∀ r ∈ runCorrelationPipeline l now,
      ∃ c g p, r.concurrent_anomalies = some c ∧ r.geo_hotspot_score = some g ∧
        r.is_persistent_offender = some p ∧
        r.confidence_score = some (confidenceScore r.severity c g p)) ∧
    (∀ (s₁ s₂ : Option String) (c₁ c₂ : Nat) (g₁ g₂ : ℚ) (p₁ p₂ : Bool),
      sevRank s₁ ≤ sevRank s₂ → c₁ ≤ c₂ → g₁ ≤ g₂ → (p₁ = true → p₂ = true) →
      confidenceScore s₁ c₁ g₁ p₁ ≤ confidenceScore s₂ c₂ g₂ p₂) ∧
    (∀ (s : Option String) (c : Nat) (g : ℚ) (p : Bool),
      confidenceScore s c g p ≤ 999 / 10) := by
  refine ⟨?_, ?_, ?_⟩
  · intro l now r hr
    obtain ⟨a, ha, rfl⟩ := runCorrelationPipeline_mem l now r hr
    exact ⟨_, _, _, rfl, rfl, rfl, rfl⟩
  · intro s₁ s₂ c₁ c₂ g₁ g₂ p₁ p₂ hs hc hg hp
    unfold confidenceScore
    apply min_le_min le_rfl
    have h1 : confSevBonus s₁ ≤ confSevBonus s₂ := confSevBonus_mono _ _ hs
    have h2 : (if c₁ > 3 then (5 : ℚ) else 0) ≤ (if c₂ > 3 then 5 else 0) := by
      by_cases hc1 : c₁ > 3
      · rw [if_pos hc1, if_pos (lt_of_lt_of_le hc1 hc)]
      · rw [if_neg hc1]
        split <;> norm_num
    have h3 : (if g₁ > 3 / 10 then (4 : ℚ) else 0) ≤ (if g₂ > 3 / 10 then 4 else 0) := by
      by_cases hg1 : g₁ > 3 / 10
      · rw [if_pos hg1, if_pos (lt_of_lt_of_le hg1 hg)]
      · rw [if_neg hg1]
        split <;> norm_num
    have h4 : (if p₁ then (5 : ℚ) else 0) ≤ (if p₂ then 5 else 0) := by
      by_cases hp1 : p₁ = true
      · rw [if_pos hp1, if_pos (hp hp1)]
      · rw [if_neg hp1]
        split <;> norm_num
    exact add_le_add (add_le_add (add_le_add (add_le_add le_rfl h1) h2) h3) h4
  · intro s c g p
    exact min_le_left _ _

/-- C4 witness input record. -/
def c4In : AnomalyRec :=
  { date := some 19723, region := some "R", metric := some "total_enrolment",
    anomaly_type := some "Spike", severity := some "Critical" }

/-- C4 witness: the scoring law applied to concrete inputs. -/
theorem C4_confidence_score_witness :
    confidenceScore (some "High") 0 0 false ≤ confidenceScore (some "Critical") 4 1 true ∧
    confidenceScore (some "Critical") 4 1 true ≤ 999 / 10 ∧
    (runCorrelationPipeline [c4In] 0).map (fun r => r.confidence_score.isSome) = [true] := by
  obtain ⟨hpipe, hmono, hcap⟩ := C4_confidence_score
  refine ⟨hmono (some "High") (some "Critical") 0 4 0 1 false true (by decide) (by decide)
      (by norm_num) (by decide), hcap _ _ _ _, ?_⟩
  cases hL : runCorrelationPipeline [c4In] 0 with
  | nil =>
    have : (runCorrelationPipeline [c4In] 0).length = 1 := by decide
    rw [hL] at this
    simp at this
  | cons r t =>
    have hlen : (runCorrelationPipeline [c4In] 0).length = 1 := by decide
    rw [hL] at hlen
    cases t with
    | cons _ _ => simp at hlen
    | nil =>
      have hr : r ∈ runCorrelationPipeline [c4In] 0 := by
        rw [hL]; exact List.mem_cons_self _ _
      obtain ⟨c, g, p, -, -, -, hconf⟩ := hpipe [c4In] 0 r hr
      simp [hconf]

/-! ## C6 — compliance signature -/

/-- Upper-case hexadecimal digits. -/
def upperHexChars : List Char := "0123456789ABCDEF".data

lemma hexChar_mem (n : Nat) : hexChar n ∈ hexDigitChars := by
  unfold hexChar
  by_cases h : n < hexDigitChars.length
  · rw [List.getD_eq_getElem?_getD, List.getElem?_eq_getElem h, Option.getD_some]
    exact List.getElem_mem h
  · rw [List.getD_eq_getElem?_getD, List.getElem?_eq_none (by omega), Option.getD_none]
    decide

lemma byteHex_chars (b : Nat) : ∀ ch ∈ byteHex b, ch ∈ hexDigitChars := by
  intro ch hch
  simp only [byteHex, List.mem_cons, List.mem_singleton, List.not_mem_nil, or_false] at hch
  rcases hch with rfl | rfl <;> exact hexChar_mem _

lemma digestBytes_length (st : ShaState) : (digestBytes st).length = 32 := by
  simp [digestBytes, wordBytes]

lemma hexDigestChars_length (msg : List Nat) : (hexDigestChars msg).length = 64 := by
  unfold hexDigestChars
  rw [List.length_flatten, List.map_map]
  have h : (digestBytes (sha256 msg)).map (List.length ∘ byteHex) =
      List.replicate (digestBytes (sha256 msg)).length 2 := by
    apply List.eq_replicate_of_mem
    intro b hb
    rw [List.mem_map] at hb
    obtain ⟨x, -, rfl⟩ := hb
    rfl
  rw [h, List.sum_replicate, digestBytes_length]
  rfl

lemma hexDigestChars_mem (msg : List Nat) : ∀ ch ∈ hexDigestChars msg, ch ∈ hexDigitChars := by
  intro ch hch
  unfold hexDigestChars at hch
  rw [List.mem_flatten] at hch
  obtain ⟨l, hl, hchl⟩ := hch
  rw [List.mem_map] at hl
  obtain ⟨b, -, rfl⟩ := hl
  exact byteHex_chars b ch hchl

lemma toUpper_hex : ∀ c ∈ hexDigitChars, c.toUpper ∈ upperHexChars := by decide

/-- C6 (amended): the compliance signature is a deterministic pure function of
the four fields (date, region, center_id, anomaly_type) TOGETHER WITH the
batch's column-presence flags (a missing field renders as 'nan' when any
anomaly of the batch carries that column, as 'None' otherwise); for anomalies
whose four fields are all present it depends on the four fields alone.  The
result is always a 16-character upper-case hexadecimal string. -/
theorem C6_signature_pure (hd hg hc ht : Bool) (a b : AnomalyRec)
    (h1 : a.date = b.date) (h2 : a.region = b.region)
    (h3 : a.center_id = b.center_id) (h4 : a.anomaly_type = b.anomaly_type) :
    complianceSignature hd hg hc ht a = complianceSignature hd hg hc ht b ∧
    (complianceSignature hd hg hc ht a).length = 16 ∧
    (∀ ch ∈ (complianceSignature hd hg hc ht a).data, ch ∈ upperHexChars) ∧
    (a.date.isSome → a.region.isSome → a.center_id.isSome → a.anomaly_type.isSome →
      ∀ hd' hg' hc' ht', complianceSignature hd hg hc ht a =
        complianceSignature hd' hg' hc' ht' a) := by
  refine ⟨?_, ?_, ?_, ?_⟩
  · unfold complianceSignature
    rw [h1, h2, h3, h4]
  · obtain ⟨msg, hm⟩ : ∃ msg, (complianceSignature hd hg hc ht a).data =
        ((hexDigestChars msg).take 16).map Char.toUpper := ⟨_, rfl⟩
    have hlen : (complianceSignature hd hg hc ht a).length =
        (complianceSignature hd hg hc ht a).data.length := rfl
    rw [hlen, hm, List.length_map, List.length_take, hexDigestChars_length]
    decide
  · intro ch hch
    obtain ⟨msg, hm⟩ : ∃ msg, (complianceSignature hd hg hc ht a).data =
        ((hexDigestChars msg).take 16).map Char.toUpper := ⟨_, rfl⟩
    rw [hm, List.mem_map] at hch
    obtain ⟨c, hc', rfl⟩ := hch
    exact toUpper_hex c (hexDigestChars_mem _ c (List.take_subset _ _ hc'))
  · intro i1 i2 i3 i4 hd' hg' hc' ht'
    obtain ⟨d, hdd⟩ := Option.isSome_iff_exists.mp i1
    obtain ⟨rg, hrg⟩ := Option.isSome_iff_exists.mp i2
    obtain ⟨cid, hcid⟩ := Option.isSome_iff_exists.mp i3
    obtain ⟨t, hat⟩ := Option.isSome_iff_exists.mp i4
    unfold complianceSignature
    rw [hdd, hrg, hcid, hat]
    rfl

/-- C6 counterexample: a center anomaly with no date field. -/
def c6Center : AnomalyRec :=
  { region := some "R", center_id := some "C", metric := some "m",
    anomaly_type := some "T", severity := some "Critical" }

/-- A dated anomaly sharing the batch with `c6Center`. -/
def c6Dated : AnomalyRec :=
  { date := some 19729, region := some "R", metric := some "m2",
    anomaly_type := some "Seasonal Deviation", severity := some "Medium" }

/-- C6, counterexample: the same anomaly (equal on all four hashed fields, date
absent) receives DIFFERENT signatures in two runs — batched with a dated
anomaly its missing date renders as 'nan', alone it renders as 'None' — so the
signature is not a pure function of the four fields. -/
theorem C6_counterexample :
    ((runCorrelationPipeline [c6Center, c6Dated] 0).map (fun r =>
      (r.date, r.region, r.center_id, r.anomaly_type, r.compliance_signature))).head? =
      some (none, some "R", some "C", some "T", some "17854341B80CF245") ∧
    ((runCorrelationPipeline [c6Center] 0).map (fun r =>
      (r.date, r.region, r.center_id, r.anomaly_type, r.compliance_signature))).head? =
      some (none, some "R", some "C", some "T", some "9EC813BE7FEB8231") ∧
    ("17854341B80CF245" : String) ≠ "9EC813BE7FEB8231" := by
  refine ⟨by decide, by decide, by decide⟩

/-- C6 witness record A. -/
def c6wA : AnomalyRec :=
  { date := some 19729, region := some "R", center_id := some "C",
    anomaly_type := some "T", severity := some "Critical" }

/-- C6 witness record B: same four hashed fields, all other fields different. -/
def c6wB : AnomalyRec :=
  { date := some 19729, region := some "R", center_id := some "C",
    anomaly_type := some "T", severity := some "Medium",
    is_suppressed := some true, metric := some "other" }

/-- C6 witness: determinism and format on concrete records. -/
theorem C6_signature_pure_witness :
    complianceSignature true true true true c6wA =
      complianceSignature true true true true c6wB ∧
    (complianceSignature true true true true c6wA).length = 16 := by
  have h := C6_signature_pure true true true true c6wA c6wB rfl rfl rfl rfl
  exact ⟨h.1, h.2.1⟩

/-! ## C7 — correlation re-emits every anomaly once, enriched -/

lemma forall₂_map_self {α β : Type} (R : α → β → Prop) (f : α → β) (l : List α)
    (h : ∀ a ∈ l, R a (f a)) : List.Forall₂ R l (l.map f) := by
  induction l with
  | nil => exact List.Forall₂.nil
  | cons x t ih =>
    exact List.Forall₂.cons (h x (List.mem_cons_self x t))
      (ih fun a ha => h a (List.mem_cons_of_mem _ ha))

/-- C7: the correlation stage re-emits every anomaly exactly once (same length,
pointwise), leaving anomaly_type, severity, metric, value, region (and the
other pre-existing keys) unchanged while setting the enrichment fields; the
re-categorisation keeps suppressed anomalies in a separate list (none of the
category lists contains a suppressed anomaly), and the report exposes that
list unchanged. -/
theorem C7_enrichment_frame (l : List AnomalyRec) (now : ℤ) :
    (runCorrelationPipeline l now).length = l.length ∧
    List.Forall₂ (fun a b : AnomalyRec =>
      b.anomaly_type = a.anomaly_type ∧ b.severity = a.severity ∧ b.metric = a.metric ∧
      b.value = a.value ∧ b.region = a.region ∧ b.date = a.date ∧
      b.center_id = a.center_id ∧ b.month = a.month ∧ b.state = a.state ∧
      b.concurrent_anomalies.isSome = true ∧ b.geo_hotspot_score.isSome = true ∧
      b.is_persistent_offender.isSome = true ∧ b.is_suppressed.isSome = true ∧
      b.confidence_score.isSome = true ∧ b.compliance_signature.isSome = true)
      l (runCorrelationPipeline l now) ∧
    (∀ s : EngineState,
      s.confirmed_anomalies ++ s.center_anomalies ++ s.retry_anomalies ++
        s.seasonal_anomalies ≠ [] →
      (applyPatternCorrelation now s).suppressed_anomalies =
        (runCorrelationPipeline (s.confirmed_anomalies ++ s.center_anomalies ++
          s.retry_anomalies ++ s.seasonal_anomalies) now).filter truthySupp ∧
      (∀ a ∈ (applyPatternCorrelation now s).center_anomalies ++
          (applyPatternCorrelation now s).retry_anomalies ++
          (applyPatternCorrelation now s).seasonal_anomalies ++
          (applyPatternCorrelation now s).peer_lag_anomalies ++
          (applyPatternCorrelation now s).confirmed_anomalies,
        truthySupp a = false)) ∧
    (∀ s : EngineState,
      (generateAnomalyReport s).suppressed_anomalies = s.suppressed_anomalies) := by
  refine ⟨?_, ?_, ?_, fun s => rfl⟩
  · unfold runCorrelationPipeline
    by_cases hl : l = []
    · rw [if_pos hl, hl]
    · rw [if_neg hl, List.length_map]
  · unfold runCorrelationPipeline
    by_cases hl : l = []
    · rw [if_pos hl, hl]; exact List.Forall₂.nil
    · rw [if_neg hl]
      exact forall₂_map_self _ _ l (fun a _ =>
        ⟨rfl, rfl, rfl, rfl, rfl, rfl, rfl, rfl, rfl, rfl, rfl, rfl, rfl, rfl, rfl⟩)
  · intro s hne
    unfold applyPatternCorrelation
    rw [if_neg hne]
    refine ⟨rfl, ?_⟩
    intro a ha
    simp only [List.mem_append, List.mem_filter, Bool.and_eq_true,
      Bool.not_eq_true'] at ha
    rcases ha with ((((⟨-, -, h⟩ | ⟨-, -, h⟩) | ⟨-, -, h⟩) | ⟨-, -, h⟩) | ⟨-, -, h⟩) <;>
      exact h

/-- C7 witness engine state: one center anomaly entering correlation. -/
def c7State : EngineState :=
  { center_anomalies :=
      [{ center_id := some "C-1", region := some "R", metric := some "avg_processing_time_min",
         anomaly_type := some "Impossible Efficiency (Bot Risk)", severity := some "Critical" }] }

/-- C7 witness: the suppressed-list law applied to a concrete state. -/
theorem C7_enrichment_frame_witness :
    (applyPatternCorrelation 0 c7State).suppressed_anomalies =
      (runCorrelationPipeline (c7State.confirmed_anomalies ++ c7State.center_anomalies ++
        c7State.retry_anomalies ++ c7State.seasonal_anomalies) 0).filter truthySupp := by
  exact ((C7_enrichment_frame (c7State.confirmed_anomalies ++ c7State.center_anomalies ++
    c7State.retry_anomalies ++ c7State.seasonal_anomalies) 0).2.2.1 c7State
    (by decide)).1

/-! ## C8 — z-score detector: degenerate series and the threshold rule -/

lemma sampleVar_pos (l : List ℚ) (v : ℚ) (h : sampleVar l = some v) (hv : v ≠ 0) :
    0 < v := by
  unfold sampleVar at h
  by_cases hl : l.length ≤ 1
  · rw [if_pos hl] at h; exact absurd h (by simp)
  · rw [if_neg hl] at h
    have hv' : v = (l.map (fun x => (x - meanQ l) ^ 2)).sum / ((l.length : ℚ) - 1) := by
      exact (Option.some_inj.mp h).symm
    have hnum : 0 ≤ (l.map (fun x => (x - meanQ l) ^ 2)).sum := by
      apply List.sum_nonneg
      intro x hx
      rw [List.mem_map] at hx
      obtain ⟨y, -, rfl⟩ := hx
      positivity
    have hden : 0 < (l.length : ℚ) - 1 := by
      have : 2 ≤ l.length := by omega
      have : (2 : ℚ) ≤ (l.length : ℚ) := by exact_mod_cast this
      linarith
    have : 0 ≤ v := hv'.symm ▸ div_nonneg hnum hden.le
    exact lt_of_le_of_ne this (Ne.symm hv)

/-- The rational squared test matches the source's `|d| / sqrt v > t`. -/
lemma sq_test_iff_sqrt (t v d : ℚ) (ht : 0 ≤ t) (hv : 0 < v) :
    t ^ 2 * v < d ^ 2 ↔ (t : ℝ) < |(d : ℝ)| / Real.sqrt (v : ℝ) := by
  have hv' : (0 : ℝ) < (v : ℝ) := by exact_mod_cast hv
  have hs : 0 < Real.sqrt (v : ℝ) := Real.sqrt_pos.mpr hv'
  rw [lt_div_iff hs]
  have ha : 0 ≤ (t : ℝ) * Real.sqrt (v : ℝ) :=
    mul_nonneg (by exact_mod_cast ht) hs.le
  constructor
  · intro h
    have hd2 : ((t : ℝ) * Real.sqrt (v : ℝ)) ^ 2 < |(d : ℝ)| ^ 2 := by
      rw [mul_pow, Real.sq_sqrt hv'.le, sq_abs]
      exact_mod_cast h
    exact lt_of_pow_lt_pow_left 2 (abs_nonneg _) hd2
  · intro h
    have h2 := pow_lt_pow_left₀ h ha (by decide : (2 : ℕ) ≠ 0)
    rw [mul_pow, Real.sq_sqrt hv'.le, sq_abs] at h2
    exact_mod_cast h2

lemma const_sampleVar (l : List ℚ) (c : ℚ) (h : ∀ x ∈ l, x = c) :
    sampleVar l = none ∨ sampleVar l = some 0 := by
  unfold sampleVar
  by_cases hl : l.length ≤ 1
  · left; rw [if_pos hl]
  · right
    rw [if_neg hl]
    have hnz : (l.length : ℚ) ≠ 0 := by
      have : 2 ≤ l.length := by omega
      positivity
    have hsum : l.sum = (l.length : ℚ) * c := by
      have hrep : l = List.replicate l.length c := List.eq_replicate_of_mem h
      conv_lhs => rw [hrep]
      rw [List.sum_replicate, nsmul_eq_mul]
    have hmean : meanQ l = c := by
      rw [meanQ, hsum, mul_comm, mul_div_assoc, div_self hnz, mul_one]
    have hzero : l.map (fun x => (x - meanQ l) ^ 2) =
        List.replicate l.length 0 := by
      rw [← List.length_map l (fun x => (x - meanQ l) ^ 2)]
      apply List.eq_replicate_of_mem
      intro b hb
      rw [List.mem_map] at hb
      obtain ⟨x, hx, rfl⟩ := hb
      rw [hmean, h x hx]
      ring
    rw [hzero, List.sum_replicate]
    simp

/-- C8: on a constant-valued metric series the z-score detector emits nothing
(degenerate std guard; a series of fewer than two points has NaN std and also
emits nothing); on a non-degenerate series a period is flagged exactly when
`|value − mean| / std` exceeds the threshold, with severity Critical when the
z-score magnitude exceeds 3 and High otherwise. -/
theorem C8_zscore_detector (threshold : ℚ) (rows : List MonthlyRow) (name : String)
    (proj : MonthlyRow → ℚ) :
    ((∃ c : ℚ, ∀ r ∈ rows, proj r = c) →
      detectZscoreMetric threshold rows name proj = []) ∧
    (∀ v, sampleVar (rows.map proj) = some v → v ≠ 0 → 0 ≤ threshold →
      ∀ rec, rec ∈ detectZscoreMetric threshold rows name proj ↔
        ∃ r ∈ rows,
          (threshold : ℝ) <
            |(proj r : ℝ) - (meanQ (rows.map proj) : ℝ)| / Real.sqrt (v : ℝ) ∧
          rec = { month := some r.month, metric := some name,
                  value := some (Val.num ((pyInt (proj r) : ℤ) : ℚ)),
                  anomaly_type :=
                    some (if proj r > meanQ (rows.map proj) then "Spike" else "Drop"),
                  severity := some (if (3 : ℝ) <
                      |(proj r : ℝ) - (meanQ (rows.map proj) : ℝ)| / Real.sqrt (v : ℝ)
                    then "Critical" else "High") } ) := by
  constructor
  · rintro ⟨c, hc⟩
    have hconst : ∀ x ∈ rows.map proj, x = c := by
      intro x hx
      rw [List.mem_map] at hx
      obtain ⟨r, hr, rfl⟩ := hx
      exact hc r hr
    rcases const_sampleVar (rows.map proj) c hconst with h | h
    · unfold detectZscoreMetric
      simp only [h]
    · unfold detectZscoreMetric
      simp only [h, if_pos]
  · intro v hv hvne ht rec
    have hvpos := sampleVar_pos (rows.map proj) v hv hvne
    unfold detectZscoreMetric
    simp only [hv, if_neg hvne, List.mem_map]
    constructor
    · rintro ⟨r, hr, rfl⟩
      rw [List.mem_filter] at hr
      obtain ⟨hrmem, hflag⟩ := hr
      simp only [zscoreFlag, decide_eq_true_eq, gt_iff_lt] at hflag
      have hmain := (sq_test_iff_sqrt threshold v (proj r - meanQ (rows.map proj))
        ht hvpos).mp hflag
      push_cast at hmain
      have hsev := sq_test_iff_sqrt 3 v (proj r - meanQ (rows.map proj)) (by norm_num) hvpos
      push_cast at hsev
      norm_num at hsev
      refine ⟨r, hrmem, hmain, ?_⟩
      have hif : (if (proj r - meanQ (rows.map proj)) ^ 2 > 9 * v then "Critical" else "High") =
          (if (3 : ℝ) < |(proj r : ℝ) - (meanQ (rows.map proj) : ℝ)| / Real.sqrt (v : ℝ)
            then "Critical" else "High") :=
        if_congr (by rw [gt_iff_lt]; exact hsev) rfl rfl
      rw [hif]
    · rintro ⟨r, hrmem, hflag, rfl⟩
      have hsev := sq_test_iff_sqrt 3 v (proj r - meanQ (rows.map proj)) (by norm_num) hvpos
      push_cast at hsev
      norm_num at hsev
      have hmain := sq_test_iff_sqrt threshold v (proj r - meanQ (rows.map proj)) ht hvpos
      push_cast at hmain
      refine ⟨r, List.mem_filter.mpr ⟨hrmem, ?_⟩, ?_⟩
      · simp only [zscoreFlag, decide_eq_true_eq, gt_iff_lt]
        exact hmain.mpr hflag
      · have hif : (if (proj r - meanQ (rows.map proj)) ^ 2 > 9 * v then "Critical" else "High") =
            (if (3 : ℝ) < |(proj r : ℝ) - (meanQ (rows.map proj) : ℝ)| / Real.sqrt (v : ℝ)
              then "Critical" else "High") :=
          if_congr (by rw [gt_iff_lt]; exact hsev) rfl rfl
        rw [hif]

/-- C8 witness: a constant series. -/
def c8ConstRows : List MonthlyRow :=
  [{ month := "2023-01", total_enrolment := 5, total_demo_updates := 5, total_bio_updates := 5 },
   { month := "2023-02", total_enrolment := 5, total_demo_updates := 5, total_bio_updates := 5 },
   { month := "2023-03", total_enrolment := 5, total_demo_updates := 5, total_bio_updates := 5 }]

/-- C8 witness: a short non-degenerate series. -/
def c8SpikeRows : List MonthlyRow :=
  [{ month := "m1", total_enrolment := 0, total_demo_updates := 0, total_bio_updates := 0 },
   { month := "m2", total_enrolment := 0, total_demo_updates := 0, total_bio_updates := 0 },
   { month := "m3", total_enrolment := 6, total_demo_updates := 0, total_bio_updates := 0 }]

/-- The spike row of `c8SpikeRows`. -/
def c8SpikeRow : MonthlyRow :=
  { month := "m3", total_enrolment := 6, total_demo_updates := 0, total_bio_updates := 0 }

/-- The anomaly record the witness spike produces (threshold 0). -/
def c8SpikeRec : AnomalyRec :=
  { month := some "m3", metric := some "total_enrolment",
    value := some (Val.num 6), anomaly_type := some "Spike", severity := some "High" }

/-- C8 witness: degenerate guard and threshold rule on concrete series. -/
theorem C8_zscore_detector_witness :
    detectZscoreMetric (5 / 2) c8ConstRows "total_enrolment" (fun r => r.total_enrolment) = [] ∧
    c8SpikeRec ∈ detectZscoreMetric 0 c8SpikeRows "total_enrolment"
      (fun r => r.total_enrolment) := by
  constructor
  · exact (C8_zscore_detector (5 / 2) c8ConstRows "total_enrolment"
      (fun r => r.total_enrolment)).1 ⟨5, by decide⟩
  · have hmap : c8SpikeRows.map (fun r => r.total_enrolment) = [0, 0, 6] := rfl
    have hvar : sampleVar (c8SpikeRows.map (fun r => r.total_enrolment)) = some 12 := by
      rw [hmap]
      norm_num [sampleVar, meanQ, List.sum_cons, List.sum_nil, List.map_cons, List.map_nil]
    have hmean : meanQ (c8SpikeRows.map (fun r => r.total_enrolment)) = 2 := by
      rw [hmap]
      norm_num [meanQ, List.sum_cons, List.sum_nil]
    have hiff := (C8_zscore_detector 0 c8SpikeRows "total_enrolment"
      (fun r => r.total_enrolment)).2 12 hvar (by norm_num) le_rfl c8SpikeRec
    apply hiff.mpr
    refine ⟨c8SpikeRow, by decide, ?_, ?_⟩
    · have h := (sq_test_iff_sqrt 0 12
        (6 - meanQ (c8SpikeRows.map (fun r => r.total_enrolment))) le_rfl (by norm_num)).mp
        (by rw [hmean]; norm_num)
      push_cast at h ⊢
      convert h using 3
    · have hnot : ¬ ((3 : ℝ) <
          |((6 : ℚ) : ℝ) - (meanQ (c8SpikeRows.map (fun r => r.total_enrolment)) : ℝ)| /
            Real.sqrt ((12 : ℚ) : ℝ)) := by
        intro h
        have h' := (sq_test_iff_sqrt 3 12
          (6 - meanQ (c8SpikeRows.map (fun r => r.total_enrolment))) (by norm_num)
          (by norm_num)).mpr (by push_cast; convert h using 3)
        rw [hmean] at h'
        norm_num at h'
      have hpos : (6 : ℚ) > meanQ (c8SpikeRows.map (fun r => r.total_enrolment)) := by
        rw [hmean]; norm_num
      have hval : ((pyInt (6 : ℚ) : ℤ) : ℚ) = 6 := by decide
      simp only [c8SpikeRec, c8SpikeRow]
      rw [if_pos hpos, if_neg hnot, hval]

/-! ## C2 — anomalies reach the final report without a compliance signature -/

/-- C2 failing input: a benchmark file with one peer-lagging state; every
optional dataset absent, monthly/state tables empty. -/
def c2Bench : List BenchRow :=
  [{ state := "S1", peer_lag_flag := true, biometric_update_rt := 1,
     cohort_median_bio_rt := 1, bio_performance_gap_pct := 13, peer_group_id := "PG1" }]

/-- The full pipeline run on the C2 failing input (model bodies irrelevant:
`region_updates` is absent, so all ML detectors are skipped by their guards). -/
def c2Report : AnomalyReport :=
  runAnomalyDetection (fun _ => []) (fun _ => []) (fun _ => []) (fun _ => [])
    [] [] none none none (some c2Bench) 0

/-- C2: the generated report contains an anomaly (in the peer-lag category)
with NO compliance signature, while the report's own `audit_signed_count`
claims one signed anomaly — peer-lag (like temporal, state-level and
ML-potential) anomalies never pass through the correlation engine that
attaches signatures. -/
theorem C2_unsigned_report_anomaly :
    c2Report.peer_lag_anomalies.map (fun a => a.compliance_signature) = [none] ∧
    c2Report.peer_lag_anomalies ≠ [] ∧
    c2Report.total_anomalies = 1 ∧
    c2Report.audit_signed_count = 1 := by
  refine ⟨by decide, by decide, by decide, by decide⟩
